import Mathlib

/-!
FOSS web frontend: the client-side orchestration layer.

A shallow embedding of the handlers of `web-frontend/src`:

* `services/api.js`: the request interceptor and `logout`;
* `context/AuthContext.jsx`: the restore effect, `login`, `logout`;
* `components/Upload.jsx`: `handleFile`, `handleUpload` and the upload button;
* `components/Dashboard.jsx`: `fetchStats`, `handleUploadSuccess`,
  `handleDownloadPDF`, the PDF button and the state-dependent parts of the render;
* `components/History.jsx`: `fetchHistory` and the render of the table.

Conventions of the embedding.

* A React component's `useState` cells are the fields of a structure; a handler is a
  function from the state to the new state together with the list of calls it makes
  (network requests and callback props), in program order.
* An `async` handler is split at its `await`: the part that runs synchronously up to
  the `await` (`...Start`), and the continuation that runs when the awaited promise
  settles (`...Resolve`, `...Reject`, the latter followed by the `finally` block).
* `localStorage` is an association list from keys to string values.
* JavaScript strings are Lean strings; `endsWith` compares the trailing characters.
* A number field of a payload holds the integer the server sent; `numberText` writes it
  as the program does, through the nearest double and `Number::toString`.
-/

namespace Foss

/-! ## JavaScript values -/

/-- The method `String.prototype.endsWith`: the receiver's last characters are `suffix`. -/
def endsWith (s suffix : String) : Bool :=
  suffix.data.isSuffixOf s.data

/-- Truthiness of a value that is a string or `null`/`undefined`: a non-empty string. -/
def truthy : Option String → Bool
  | none => false
  | some s => s.length != 0

/-- The expression `a || b` for a string-or-null `a` and a string `b`. -/
def orElse (a : Option String) (b : String) : String :=
  match a with
  | none => b
  | some s => if s.length != 0 then s else b

/-! ## Numbers written as text

A count or an id reaches a handler as a JavaScript number: `JSON.parse` turns the integer
the server sent into the nearest double, and a template literal or a JSX child writes that
number with `Number::toString`: the fewest digits that identify the double, in plain
decimal notation below `10^21` and in exponent notation from there on. Up to `2^53` every
integer is a double and is written digit for digit. -/

/-- The position of the leading bit of `n`, for `n` below `2 ^ fuel`. -/
def log2Fuel : Nat → Nat → Nat
  | 0, _ => 0
  | fuel + 1, n => if n < 2 then 0 else log2Fuel fuel (n / 2) + 1

/-- The double nearest to the integer `n`, ties going to the even significand, as
`JSON.parse` reads an integer literal; for `n` in the range of the finite doubles. -/
def toDouble (n : Nat) : Nat :=
  if n < 2 ^ 53 then n
  else
    let ulp := 2 ^ (log2Fuel 1024 n - 52)
    let q := n / ulp
    let r := n % ulp
    if ulp < 2 * r ∨ (2 * r = ulp ∧ q % 2 = 1) then (q + 1) * ulp else q * ulp

/-- The distance between two numbers. -/
def gap (a b : Nat) : Nat :=
  if a ≤ b then b - a else a - b

/-- The pairs `(s, m)` with `s` of exactly `k` digits whose value `s * 10 ^ m` is read
back as the double `x`: for each of the two possible magnitudes, the two `k`-digit
numbers next to `x`. -/
def digitCandidates (x k : Nat) : List (Nat × Nat) :=
  [(toString x).length, (toString x).length + 1].flatMap fun n =>
    [x / 10 ^ (n - k), x / 10 ^ (n - k) + 1].filterMap fun s =>
      if 10 ^ (k - 1) ≤ s ∧ s < 10 ^ k ∧ toDouble (s * 10 ^ (n - k)) = x then some (s, n - k)
      else none

/-- Of the candidates the one whose value is closest to `x`, the even `s` on a tie. -/
def closest (x : Nat) : List (Nat × Nat) → Option (Nat × Nat)
  | [] => none
  | c :: rest =>
    match closest x rest with
    | none => some c
    | some d =>
      if gap (c.1 * 10 ^ c.2) x < gap (d.1 * 10 ^ d.2) x then some c
      else if gap (c.1 * 10 ^ c.2) x = gap (d.1 * 10 ^ d.2) x ∧ c.1 % 2 = 0 then some c
      else some d

/-- The digits `s` and the count `m` of zeros after them that `Number::toString` uses for
the double `x`: the least number of digits `k`, tried from `k` upwards, for which some
`s * 10 ^ m` is read back as `x`. Seventeen digits always identify a double. -/
def shortestDigits (x : Nat) : Nat → Nat → Nat × Nat
  | 0, _ => (x, 0)
  | fuel + 1, k =>
    match closest x (digitCandidates x k) with
    | some c => c
    | none => shortestDigits x fuel (k + 1)

/-- The text a template literal or a JSX child writes for the number that `JSON.parse`
made of the integer `n` (`Number::toString`): the decimal digits of `n` below `2 ^ 53`;
'Infinity' from `2 ^ 1024 - 2 ^ 970` on, where the nearest double is infinite; between
them the shortest digits of the nearest double, followed by zeros when the number has
at most 21 digits, and in exponent notation otherwise. -/
def numberText (n : Nat) : String :=
  if n < 2 ^ 53 then toString n
  else if (2 ^ 54 - 1) * (2 ^ 194) ^ 5 ≤ n then "Infinity"
  else
    let c := shortestDigits (toDouble n) 17 1
    let digits := toString c.1
    if digits.length + c.2 ≤ 21 then digits ++ String.join (List.replicate c.2 "0")
    else if digits.length = 1 then digits ++ "e+" ++ toString (digits.length + c.2 - 1)
    else digits.take 1 ++ "." ++ digits.drop 1 ++ "e+" ++ toString (digits.length + c.2 - 1)

/-! ## Key-value maps: `localStorage` and request headers -/

/-- A string-keyed map with string values, as `localStorage` or a header object. -/
abbrev Storage := List (String × String)

/-- The method `getItem(key)`: the stored value, or `null`. -/
def getItem : Storage → String → Option String
  | [], _ => none
  | (k, v) :: rest, key => if k = key then some v else getItem rest key

/-- The method `setItem(key, value)`: overwrites the value of `key` or adds the key. -/
def setItem : Storage → String → String → Storage
  | [], key, value => [(key, value)]
  | (k, v) :: rest, key, value =>
    if k = key then (key, value) :: rest else (k, v) :: setItem rest key value

/-- The method `removeItem(key)`: afterwards `key` is not stored. -/
def removeItem : Storage → String → Storage
  | [], _ => []
  | (k, v) :: rest, key =>
    if k = key then removeItem rest key else (k, v) :: removeItem rest key

/-! ## Errors of a request (axios) -/

/-- The body and status of an error response, as far as the handlers read it. -/
structure ErrorResponse where
  status : Nat
  error : Option String
  detail : Option String
  non_field_errors : Option (List String)
  deriving DecidableEq, Repr

/-- A rejected request: `response` is absent when no response was received. -/
structure RequestError where
  response : Option ErrorResponse
  deriving DecidableEq, Repr

/-- The expression `error.response?.data?.error`. -/
def RequestError.dataError (e : RequestError) : Option String :=
  e.response.bind (·.error)

/-- The expression `err.response?.data?.detail`. -/
def RequestError.dataDetail (e : RequestError) : Option String :=
  e.response.bind (·.detail)

/-- The expression `error.response?.data?.non_field_errors?.[0]`. -/
def RequestError.firstNonFieldError (e : RequestError) : Option String :=
  (e.response.bind (·.non_field_errors)).bind List.head?

/-! ## Calls made by a handler -/

/-- A file chosen by the user. -/
structure File where
  name : String
  bytes : List Nat
  deriving DecidableEq, Repr

/-- A call a handler makes to the outside: the four authorized requests of
`services/api.js`, and the callback prop `onUploadSuccess`. -/
inductive Call where
  | uploadCSV (file : File)
  | getDashboardStats
  | downloadPDF
  | getHistory
  | onUploadSuccess
  deriving DecidableEq, Repr

/-- Whether a call is a network request. -/
def Call.isRequest : Call → Bool
  | .onUploadSuccess => false
  | _ => true

/-! ## `components/Upload.jsx` -/

/-- The value of `uploadStatus` when it is not `null`. -/
structure UploadStatus where
  type : String
  message : String
  deriving DecidableEq, Repr

/-- The state cells of the `Upload` component. -/
structure UploadState where
  isDragging : Bool
  isUploading : Bool
  uploadStatus : Option UploadStatus
  selectedFile : Option File
  deriving DecidableEq, Repr

/-- The initial values of the `useState` cells of `Upload`. -/
def UploadState.init : UploadState :=
  { isDragging := false, isUploading := false, uploadStatus := none, selectedFile := none }

/-- The payload `uploadCSV` resolves with: `POST /upload/` answers `{records_created}`, a
count of rows; the field holds the integer the server sent. -/
structure UploadResult where
  records_created : Nat
  deriving DecidableEq, Repr

/-- The handler `handleFile(file)`. -/
def handleFile (file : File) (s : UploadState) : UploadState × List Call :=
  if !endsWith file.name ".csv" then
    ({ s with uploadStatus := some { type := "error", message := "Only CSV files are allowed" } }, [])
  else
    ({ s with selectedFile := some file, uploadStatus := none }, [])

/-- The handler `handleFileSelect(e)`, on `e.target.files`. -/
def handleFileSelect (files : Option (List File)) (s : UploadState) : UploadState × List Call :=
  match files with
  | some (file :: _) => handleFile file s
  | _ => (s, [])

/-- The handler `handleDrop(e)`, on `e.dataTransfer.files`. -/
def handleDrop (files : Option (List File)) (s : UploadState) : UploadState × List Call :=
  match files with
  | some (file :: _) => handleFile file { s with isDragging := false }
  | _ => ({ s with isDragging := false }, [])

/-- The handler `handleUpload`, up to `await uploadCSV(selectedFile)`. -/
def handleUploadStart (s : UploadState) : UploadState × List Call :=
  match s.selectedFile with
  | none => (s, [])
  | some file => ({ s with isUploading := true, uploadStatus := none }, [Call.uploadCSV file])

/-- The handler `handleUpload` after `uploadCSV` resolved with `result`: the rest of the
`try` block, then `finally`. `hasCallback` tells whether the prop `onUploadSuccess` is set. -/
def handleUploadResolve (hasCallback : Bool) (result : UploadResult) (s : UploadState) :
    UploadState × List Call :=
  ({ s with
      uploadStatus := some
        { type := "success"
          message := "Successfully uploaded " ++ numberText result.records_created ++ " records" }
      selectedFile := none
      isUploading := false },
   if hasCallback then [Call.onUploadSuccess] else [])

/-- The handler `handleUpload` after `uploadCSV` rejected with `error`: the `catch` block,
then `finally`. -/
def handleUploadReject (error : RequestError) (s : UploadState) : UploadState × List Call :=
  ({ s with
      uploadStatus := some { type := "error", message := orElse error.dataError "Upload failed" }
      isUploading := false }, [])

/-- How an awaited request settles. -/
inductive Settled (α : Type) where
  | resolved (value : α)
  | rejected (error : RequestError)
  deriving DecidableEq, Repr

/-- One whole run of `handleUpload`, the request settling as `outcome` with no other event in
between: the final state and every call made, in order. Without a candidate the handler
returns before the request and `outcome` is not used. -/
def handleUpload (hasCallback : Bool) (outcome : Settled UploadResult) (s : UploadState) :
    UploadState × List Call :=
  match s.selectedFile with
  | none => handleUploadStart s
  | some _ =>
    let started := handleUploadStart s
    let finished :=
      match outcome with
      | .resolved result => handleUploadResolve hasCallback result started.1
      | .rejected error => handleUploadReject error started.1
    (finished.1, started.2 ++ finished.2)

/-- A click on the upload button: it is rendered only when `selectedFile` is set, and is
`disabled={isUploading}`; an enabled click runs `handleUpload` up to its `await`. -/
def clickUpload (s : UploadState) : UploadState × List Call :=
  if s.selectedFile.isSome && !s.isUploading then handleUploadStart s else (s, [])

/-- The events of one mounted `Upload` component: what the user can do, and the settling of
a pending `uploadCSV` request. -/
inductive UploadEvent where
  | dragIn
  | dragOut
  | drop (files : Option (List File))
  | fileSelect (files : Option (List File))
  | removeFile
  | clickUpload
  | uploadSettled (outcome : Settled UploadResult)
  deriving DecidableEq, Repr

/-- A mounted `Upload` component together with its `uploadCSV` requests still pending. -/
structure UploadSys where
  state : UploadState
  inFlight : List File
  deriving DecidableEq, Repr

/-- The component as mounted: initial state cells, nothing pending. -/
def UploadSys.init : UploadSys :=
  { state := UploadState.init, inFlight := [] }

/-- The files of the `uploadCSV` calls in a list of calls. -/
def uploadsOf : List Call → List File
  | [] => []
  | Call.uploadCSV file :: rest => file :: uploadsOf rest
  | _ :: rest => uploadsOf rest

/-- One event on a mounted `Upload`: the new system and the calls made. The file input is
rendered only while nothing is selected, the remove button only while a file is selected;
a settling event applies to the oldest pending request and is ignored when none is pending. -/
def UploadSys.step (hasCallback : Bool) (sys : UploadSys) (e : UploadEvent) :
    UploadSys × List Call :=
  match e with
  | .dragIn => ({ sys with state := { sys.state with isDragging := true } }, [])
  | .dragOut => ({ sys with state := { sys.state with isDragging := false } }, [])
  | .drop files =>
    let r := handleDrop files sys.state
    ({ state := r.1, inFlight := sys.inFlight ++ uploadsOf r.2 }, r.2)
  | .fileSelect files =>
    if sys.state.selectedFile.isSome then (sys, [])
    else
      let r := handleFileSelect files sys.state
      ({ state := r.1, inFlight := sys.inFlight ++ uploadsOf r.2 }, r.2)
  | .removeFile =>
    if sys.state.selectedFile.isSome then
      ({ sys with state := { sys.state with selectedFile := none } }, [])
    else (sys, [])
  | .clickUpload =>
    let r := clickUpload sys.state
    ({ state := r.1, inFlight := sys.inFlight ++ uploadsOf r.2 }, r.2)
  | .uploadSettled outcome =>
    match sys.inFlight with
    | [] => (sys, [])
    | _ :: rest =>
      let r :=
        match outcome with
        | .resolved result => handleUploadResolve hasCallback result sys.state
        | .rejected error => handleUploadReject error sys.state
      ({ state := r.1, inFlight := rest ++ uploadsOf r.2 }, r.2)

/-- A sequence of events on a mounted `Upload`, from left to right. -/
def UploadSys.run (hasCallback : Bool) (sys : UploadSys) (es : List UploadEvent) : UploadSys :=
  es.foldl (fun acc e => (UploadSys.step hasCallback acc e).1) sys

/-! ## `components/Dashboard.jsx` -/

/-- One row of `equipment_data`. -/
structure EquipmentRecord where
  id : Nat
  equipment_name : String
  type : String
  flowrate : Rat
  pressure : Rat
  temperature : Rat
  deriving DecidableEq, Repr

/-- The payload of `GET /dashboard/`, as far as the dashboard reads it; a field the
payload lacks is `none`. -/
structure DashboardStats where
  total_count : Option Nat
  equipment_data : Option (List EquipmentRecord)
  deriving DecidableEq, Repr

/-- The state cells of the `Dashboard` component. -/
structure DashboardState where
  stats : Option DashboardStats
  loading : Bool
  error : Option String
  showUpload : Bool
  downloadingPDF : Bool
  deriving DecidableEq, Repr

/-- The initial values of the `useState` cells of `Dashboard`. -/
def DashboardState.init : DashboardState :=
  { stats := none, loading := true, error := none, showUpload := false, downloadingPDF := false }

/-- The handler `fetchStats`, up to `await getDashboardStats()`. -/
def fetchStatsStart (s : DashboardState) : DashboardState × List Call :=
  ({ s with loading := true }, [Call.getDashboardStats])

/-- The handler `fetchStats` after the request resolved with `data`, then `finally`. -/
def fetchStatsResolve (data : DashboardStats) (s : DashboardState) : DashboardState :=
  { s with stats := some data, error := none, loading := false }

/-- The handler `fetchStats` after the request rejected: the `catch` block, then `finally`.
The error is only logged. -/
def fetchStatsReject (_err : RequestError) (s : DashboardState) : DashboardState :=
  { s with error := some "Failed to load dashboard data", loading := false }

/-- The handler `handleUploadSuccess`: closes the modal and calls `fetchStats`. -/
def handleUploadSuccess (s : DashboardState) : DashboardState × List Call :=
  fetchStatsStart { s with showUpload := false }

/-- The handler `handleDownloadPDF`, up to `await downloadPDF()`. -/
def handleDownloadPDFStart (s : DashboardState) : DashboardState × List Call :=
  ({ s with downloadingPDF := true }, [Call.downloadPDF])

/-- The handler `handleDownloadPDF` after the request settled: on both paths only
`finally` touches the state (the `try` block saves the blob, the `catch` block logs). -/
def handleDownloadPDFSettle (_outcome : Settled (List Nat)) (s : DashboardState) :
    DashboardState :=
  { s with downloadingPDF := false }

/-- The dashboard proper is rendered unless `loading && !stats`. -/
def rendersDashboard (s : DashboardState) : Bool :=
  !(s.loading && s.stats.isNone)

/-- Truthiness of `stats?.total_count`: present and not zero. -/
def hasTotalCount (s : DashboardState) : Bool :=
  match s.stats.bind (·.total_count) with
  | none => false
  | some n => n != 0

/-- The `disabled` attribute of the PDF button: `downloadingPDF || !stats?.total_count`. -/
def pdfDisabled (s : DashboardState) : Bool :=
  s.downloadingPDF || !hasTotalCount s

/-- A click on the PDF button: an enabled click runs `handleDownloadPDF` up to its `await`. -/
def clickPdf (s : DashboardState) : DashboardState × List Call :=
  if rendersDashboard s && !pdfDisabled s then handleDownloadPDFStart s else (s, [])

/-- The test `stats?.equipment_data?.length > 0` that chooses between the table and the
empty-table branch. -/
def hasEquipmentRows (s : DashboardState) : Bool :=
  match s.stats.bind (·.equipment_data) with
  | none => false
  | some rows => decide (0 < rows.length)

/-- The events of a mounted `Dashboard`: the header button that toggles the upload modal,
the close button and overlay of the modal, the button of the empty-table branch that
opens it, the notification of the `Upload` component, a click on the PDF button, and the
settling of pending requests. -/
inductive DashboardEvent where
  | toggleUpload
  | closeUpload
  | openUpload
  | uploadSuccess
  | fetchSettled (outcome : Settled DashboardStats)
  | clickPdf
  | pdfSettled (outcome : Settled (List Nat))
  deriving DecidableEq, Repr

/-- A mounted `Dashboard`: its state, the number of `getDashboardStats` and `downloadPDF`
requests still pending, and every call made so far, oldest first. -/
structure DashboardSys where
  state : DashboardState
  fetchesInFlight : Nat
  exportsInFlight : Nat
  issued : List Call
  deriving DecidableEq, Repr

/-- Adds the calls just made to the record of a system. -/
def DashboardSys.record (sys : DashboardSys) (r : DashboardState × List Call) : DashboardSys :=
  { state := r.1
    fetchesInFlight := sys.fetchesInFlight + r.2.count Call.getDashboardStats
    exportsInFlight := sys.exportsInFlight + r.2.count Call.downloadPDF
    issued := sys.issued ++ r.2 }

/-- The component as mounted: initial state cells, then the mount effect calls `fetchStats`. -/
def DashboardSys.mount : DashboardSys :=
  DashboardSys.record
    { state := DashboardState.init, fetchesInFlight := 0, exportsInFlight := 0, issued := [] }
    (fetchStatsStart DashboardState.init)

/-- One event on a mounted `Dashboard`. The buttons exist only while the dashboard proper
is rendered, the modal's only while `showUpload` is set, the opening button only in the
empty-table branch; the notification `uploadSuccess` runs `handleUploadSuccess`; a
settling event is ignored when no such request is pending. -/
def DashboardSys.step (sys : DashboardSys) (e : DashboardEvent) : DashboardSys :=
  match e with
  | .toggleUpload =>
    if rendersDashboard sys.state then
      { sys with state := { sys.state with showUpload := !sys.state.showUpload } }
    else sys
  | .closeUpload =>
    if rendersDashboard sys.state && sys.state.showUpload then
      { sys with state := { sys.state with showUpload := false } }
    else sys
  | .openUpload =>
    if rendersDashboard sys.state && !hasEquipmentRows sys.state then
      { sys with state := { sys.state with showUpload := true } }
    else sys
  | .uploadSuccess => sys.record (handleUploadSuccess sys.state)
  | .fetchSettled outcome =>
    if sys.fetchesInFlight = 0 then sys
    else
      { sys with
        state :=
          match outcome with
          | .resolved data => fetchStatsResolve data sys.state
          | .rejected err => fetchStatsReject err sys.state
        fetchesInFlight := sys.fetchesInFlight - 1 }
  | .clickPdf => sys.record (clickPdf sys.state)
  | .pdfSettled outcome =>
    if sys.exportsInFlight = 0 then sys
    else
      { sys with
        state := handleDownloadPDFSettle outcome sys.state
        exportsInFlight := sys.exportsInFlight - 1 }

/-- A sequence of events on a mounted `Dashboard`, from left to right. -/
def DashboardSys.run (sys : DashboardSys) (es : List DashboardEvent) : DashboardSys :=
  es.foldl DashboardSys.step sys

/-- Whether an event is the settling of a PDF export. -/
def DashboardEvent.isPdfSettled : DashboardEvent → Bool
  | .pdfSettled _ => true
  | _ => false

/-! ## `components/History.jsx` -/

/-- One entry of the payload of `GET /history/`. -/
structure BatchSummary where
  id : Nat
  uploaded_at : String
  total_records : Nat
  avg_flowrate : Option Rat
  avg_pressure : Option Rat
  avg_temperature : Option Rat
  deriving DecidableEq, Repr

/-- The state cells of the `History` component. -/
structure HistoryState where
  history : List BatchSummary
  loading : Bool
  error : Option String
  deriving DecidableEq, Repr

/-- The initial values of the `useState` cells of `History`. -/
def HistoryState.init : HistoryState :=
  { history := [], loading := true, error := none }

/-- The handler `fetchHistory`, up to `await api.get('/history/')`. -/
def fetchHistoryStart (s : HistoryState) : HistoryState × List Call :=
  (s, [Call.getHistory])

/-- The handler `fetchHistory` after the request resolved with `response.data = data`. -/
def fetchHistoryResolve (data : List BatchSummary) (s : HistoryState) : HistoryState :=
  { s with history := data, loading := false }

/-- The handler `fetchHistory` after the request rejected: the `catch` block. -/
def fetchHistoryReject (err : RequestError) (s : HistoryState) : HistoryState :=
  { s with error := some (orElse err.dataDetail "Failed to load history"), loading := false }

/-! ## `services/api.js` -/

/-- The request configuration handed to the interceptor, with its header object. -/
structure RequestConfig where
  method : String
  url : String
  headers : Storage
  deriving DecidableEq, Repr

/-- The request interceptor of `api`: reads `authToken` from storage when the request is
made and, if it is truthy, sets the `Authorization` header. -/
def requestInterceptor (storage : Storage) (config : RequestConfig) : RequestConfig :=
  match getItem storage "authToken" with
  | none => config
  | some token =>
    if truthy (some token) then
      { config with headers := setItem config.headers "Authorization" ("Token " ++ token) }
    else config

/-- The function `logout` of `services/api.js`. -/
def apiLogout (storage : Storage) : Storage :=
  removeItem (removeItem storage "authToken") "username"

/-! ## `context/AuthContext.jsx` -/

/-- The value of `user` when it is not `null`. -/
structure User where
  username : String
  token : String
  deriving DecidableEq, Repr

/-- The state cells of `AuthProvider`. -/
structure AuthState where
  user : Option User
  loading : Bool
  deriving DecidableEq, Repr

/-- The initial values of the `useState` cells of `AuthProvider`. -/
def AuthState.init : AuthState :=
  { user := none, loading := true }

/-- The mount effect of `AuthProvider`: reads both keys and sets the user when both values
are truthy. -/
def restoreEffect (storage : Storage) (s : AuthState) : AuthState :=
  match getItem storage "authToken", getItem storage "username" with
  | some token, some username =>
    if truthy (some token) && truthy (some username) then
      { user := some { username := username, token := token }, loading := false }
    else { s with loading := false }
  | _, _ => { s with loading := false }

/-- The payload of `POST /auth/token/`. -/
structure LoginData where
  token : String
  deriving DecidableEq, Repr

/-- The value `login` returns. -/
structure LoginResult where
  success : Bool
  error : Option String
  deriving DecidableEq, Repr

/-- The function `login(username, password)` of `AuthProvider`, the token request settling
as `outcome`: the new storage, the new state and the returned value. The password only
travels in the request. -/
def login (username : String) (outcome : Settled LoginData) (storage : Storage) (s : AuthState) :
    Storage × AuthState × LoginResult :=
  match outcome with
  | .resolved data =>
    (setItem (setItem storage "authToken" data.token) "username" username,
     { s with user := some { username := username, token := data.token } },
     { success := true, error := none })
  | .rejected error =>
    (storage, s,
     { success := false, error := some (orElse error.firstNonFieldError "Login failed") })

/-- The function `logout` of `AuthProvider`: `apiLogout()`, then `setUser(null)`. -/
def logout (storage : Storage) (s : AuthState) : Storage × AuthState :=
  (apiLogout storage, { s with user := none })

/-! ## The application: storage and the mounted components -/

/-- The browser storage together with the state of every component. -/
structure App where
  storage : Storage
  auth : AuthState
  dashboard : DashboardState
  upload : UploadState
  history : HistoryState
  deriving DecidableEq, Repr

/-- The four authorized requests a component makes through `api`. -/
inductive Endpoint where
  | dashboard
  | history
  | upload
  | pdf
  deriving DecidableEq, Repr

/-- What the application does when the request to `endpoint` rejects with `err`: the
`catch` and `finally` blocks of the handler that awaited it. -/
def App.onReject (endpoint : Endpoint) (err : RequestError) (a : App) : App :=
  match endpoint with
  | .dashboard => { a with dashboard := fetchStatsReject err a.dashboard }
  | .history => { a with history := fetchHistoryReject err a.history }
  | .upload => { a with upload := (handleUploadReject err a.upload).1 }
  | .pdf => { a with dashboard := handleDownloadPDFSettle (.rejected err) a.dashboard }

/-! ## Invariants and example states -/

/-- The single-flight invariant of a mounted `Upload`: a request is pending exactly while
`isUploading` is set, and then it is the only one. -/
def UploadSys.SingleFlight (sys : UploadSys) : Prop :=
  sys.inFlight.length = if sys.state.isUploading then 1 else 0

/-- An `Upload` state in the middle of an upload of `data.csv`. -/
def uploadingExample : UploadState :=
  { isDragging := false, isUploading := true, uploadStatus := none,
    selectedFile := some { name := "data.csv", bytes := [105, 100] } }

/-- A `Dashboard` state showing a snapshot of three records, nothing pending. -/
def readyExample : DashboardState :=
  { stats := some { total_count := some 3, equipment_data := none }, loading := false,
    error := none, showUpload := false, downloadingPDF := false }

/-- An application with `alice` signed in, the dashboard just mounted. -/
def signedInExample : App :=
  { storage := [("authToken", "tok1"), ("username", "alice")]
    auth := { user := some { username := "alice", token := "tok1" }, loading := false }
    dashboard := (fetchStatsStart DashboardState.init).1
    upload := UploadState.init
    history := HistoryState.init }

/-- The rejection of a request the server answered with HTTP 401. -/
def unauthorizedExample : RequestError :=
  { response := some
      { status := 401, error := none, detail := some "Invalid token.", non_field_errors := none } }

/-- The configuration of a request `GET /dashboard/` before the interceptor runs. -/
def dashboardRequestExample : RequestConfig :=
  { method := "get", url := "/dashboard/", headers := [("Content-Type", "application/json")] }

/-! ## Whole runs of the fetching handlers, and what the components render -/

/-- One whole run of `fetchStats`, the request settling as `outcome` with no other event in
between: the final state and the calls made. -/
def fetchStats (outcome : Settled DashboardStats) (s : DashboardState) :
    DashboardState × List Call :=
  let started := fetchStatsStart s
  (match outcome with
    | .resolved data => fetchStatsResolve data started.1
    | .rejected err => fetchStatsReject err started.1,
   started.2)

/-- One whole run of `handleDownloadPDF`, the request settling as `outcome`: the final
state, the calls made, and how the promise of the handler itself settles. The `catch`
block only logs and `finally` only clears the flag, so that promise always resolves. -/
def handleDownloadPDF (outcome : Settled (List Nat)) (s : DashboardState) :
    (DashboardState × List Call) × Settled Unit :=
  let started := handleDownloadPDFStart s
  ((handleDownloadPDFSettle outcome started.1, started.2), Settled.resolved ())

/-- One whole run of `fetchHistory`, the request settling as `outcome`. -/
def fetchHistory (outcome : Settled (List BatchSummary)) (s : HistoryState) :
    HistoryState × List Call :=
  let started := fetchHistoryStart s
  (match outcome with
    | .resolved data => fetchHistoryResolve data started.1
    | .rejected err => fetchHistoryReject err started.1,
   started.2)

/-- A `tr` of the equipment table: its `key` and its cells; a numeric cell holds the
number that `toFixed(2)` formats. -/
structure EquipmentRow where
  key : Nat
  equipment_name : String
  type : String
  flowrate : Rat
  pressure : Rat
  temperature : Rat
  deriving DecidableEq, Repr

/-- The `tr` that `stats.equipment_data.map` makes of one item. -/
def equipmentRow (item : EquipmentRecord) : EquipmentRow :=
  { key := item.id, equipment_name := item.equipment_name, type := item.type,
    flowrate := item.flowrate, pressure := item.pressure, temperature := item.temperature }

/-- The data-table section: the table with its rows, or the empty-table branch. -/
inductive TableSection where
  | table (rows : List EquipmentRow)
  | emptyTable
  deriving DecidableEq, Repr

/-- The rows of equipment a table section shows. -/
def TableSection.rows : TableSection → List EquipmentRow
  | .table rows => rows
  | .emptyTable => []

/-- The parts of the rendered dashboard that depend on the state cells. -/
structure DashboardView where
  pdfDisabled : Bool
  uploadModal : Bool
  errorBanner : Option String
  totalCount : Nat
  tableSection : TableSection
  deriving DecidableEq, Repr

/-- What `Dashboard` returns: the loading screen, or the dashboard proper. -/
inductive DashboardRender where
  | loadingScreen
  | dashboard (view : DashboardView)
  deriving DecidableEq, Repr

/-- The render of `Dashboard`: the loading screen when `loading && !stats`; otherwise the
PDF button with its `disabled` attribute, the modal when `showUpload`, the banner when
`error` is truthy, `stats?.total_count || 0`, and the table when
`stats?.equipment_data?.length > 0`, else the empty-table branch. -/
def renderDashboard (s : DashboardState) : DashboardRender :=
  if s.loading && s.stats.isNone then DashboardRender.loadingScreen
  else
    DashboardRender.dashboard
      { pdfDisabled := pdfDisabled s
        uploadModal := s.showUpload
        errorBanner := if truthy s.error then s.error else none
        totalCount := (s.stats.bind (·.total_count)).getD 0
        tableSection :=
          match s.stats.bind (·.equipment_data) with
          | none => TableSection.emptyTable
          | some items =>
            if 0 < items.length then TableSection.table (items.map equipmentRow)
            else TableSection.emptyTable }

/-- A `tr` of the history table made of one batch: its `key` and its cells. The date cell
holds the timestamp that `toLocaleString` formats, an average cell the number that
`toFixed(2)` formats, if the batch has one. -/
structure HistoryRow where
  key : Nat
  batchId : String
  uploaded_at : String
  records : String
  avg_flowrate : Option Rat
  avg_pressure : Option Rat
  avg_temperature : Option Rat
  deriving DecidableEq, Repr

/-- The `tr` that `history.map` makes of one batch. -/
def historyRow (batch : BatchSummary) : HistoryRow :=
  { key := batch.id
    batchId := "#" ++ numberText batch.id
    uploaded_at := batch.uploaded_at
    records := numberText batch.total_records ++ " rows"
    avg_flowrate := batch.avg_flowrate
    avg_pressure := batch.avg_pressure
    avg_temperature := batch.avg_temperature }

/-- What `History` returns: the loader, the error line, or the card with the table. In
the card, `badge` is the 'Last 5 Uploads' badge, `emptyState` the 'No history yet'
placeholder, `rows` the rows made of the batches. -/
inductive HistoryRender where
  | loading
  | error (message : String)
  | card (badge : Bool) (emptyState : Bool) (rows : List HistoryRow)
  deriving DecidableEq, Repr

/-- The render of `History`: `if (loading)`, then `if (error)`, then the card, whose body
is the placeholder when `history.length === 0` and `history.map(...)` otherwise. -/
def renderHistory (s : HistoryState) : HistoryRender :=
  if s.loading then HistoryRender.loading
  else
    match s.error with
    | some message =>
      if truthy (some message) then HistoryRender.error message
      else
        HistoryRender.card (decide (0 < s.history.length)) (decide (s.history.length = 0))
          (if s.history.length = 0 then [] else s.history.map historyRow)
    | none =>
      HistoryRender.card (decide (0 < s.history.length)) (decide (s.history.length = 0))
        (if s.history.length = 0 then [] else s.history.map historyRow)

/-- A payload of `GET /history/` with two batches, the older one first. -/
def historyExample : List BatchSummary :=
  [{ id := 4, uploaded_at := "2024-01-02T10:00:00Z", total_records := 7,
     avg_flowrate := none, avg_pressure := none, avg_temperature := none },
   { id := 9, uploaded_at := "2024-03-05T08:30:00Z", total_records := 12,
     avg_flowrate := none, avg_pressure := none, avg_temperature := none }]

/-! ## `components/Register.jsx` -/

/-- The value of one field of an error body: a message, or a list of messages. -/
inductive FieldMessages where
  | text (message : String)
  | list (messages : List String)
  deriving DecidableEq, Repr

/-- A truthy `err.response.data`: an object, given by its `Object.entries` in their order,
or a value that is not an object. -/
inductive ResponseData where
  | object (entries : List (String × FieldMessages))
  | other
  deriving DecidableEq, Repr

/-- What the `catch` block of `handleSubmit` reads of the error it caught: the value of
`err.response?.data`, `none` when there is no response or the value is falsy. -/
structure SubmitError where
  data : Option ResponseData
  deriving DecidableEq, Repr

/-- The callback of `.map` in the `catch` block: `msgs.join(' ')` for a list, else `msgs`. -/
def fieldText : FieldMessages → String
  | .list messages => " ".intercalate messages
  | .text message => message

/-- The message the `catch` block of `handleSubmit` passes to `setError`. -/
def registerErrorMessage (err : SubmitError) : String :=
  match err.data with
  | some (.object entries) => " ".intercalate (entries.map fun entry => fieldText entry.2)
  | some .other => "Registration failed. Please try again."
  | none => "Unable to connect to server."

/-- The state cells of the `Register` component. -/
structure RegisterState where
  username : String
  password : String
  passwordConfirm : String
  error : String
  isLoading : Bool
  deriving DecidableEq, Repr

/-- The initial values of the `useState` cells of `Register`. -/
def RegisterState.init : RegisterState :=
  { username := "", password := "", passwordConfirm := "", error := "", isLoading := false }

/-- A call `handleSubmit` makes to the outside: the registration request, and `navigate`
with the message it passes in `state`. -/
inductive RegisterCall where
  | register (username password passwordConfirm : String)
  | navigate (path message : String)
  deriving DecidableEq, Repr

/-- The named exports of `services/api.js`. -/
def apiNamedExports : List String :=
  ["login", "logout", "register", "uploadCSV", "getDashboardStats", "getEquipmentList",
    "downloadPDF"]

/-- The members of the default export of `services/api.js`: it is the instance made by
`axios.create`, to which the module adds no property. -/
def apiInstanceMembers : List String :=
  ["request", "getUri", "get", "delete", "head", "options", "post", "put", "patch",
    "postForm", "putForm", "patchForm", "defaults", "interceptors", "create"]

/-- The expression `await api.register(username, password, passwordConfirm)` of
`Register.jsx`, where `api` is the default import: how it settles (`none` for a resolved
promise) and the calls it makes. When `api` has a member `register` the request is sent
and settles as the server decides (`server`); when it has none, the call of `undefined`
throws a `TypeError`, an error without `response`, before anything is sent. -/
def awaitApiRegister (s : RegisterState) (server : Option SubmitError) :
    Option SubmitError × List RegisterCall :=
  if "register" ∈ apiInstanceMembers then
    (server, [RegisterCall.register s.username s.password s.passwordConfirm])
  else
    (some { data := none }, [])

/-- One whole run of `handleSubmit`, the server answering the registration request, if
one is sent, as `server`: the final state and every call made, in order. -/
def handleSubmit (server : Option SubmitError) (s : RegisterState) :
    RegisterState × List RegisterCall :=
  let started : RegisterState := { s with error := "", isLoading := true }
  let awaited := awaitApiRegister started server
  match awaited.1 with
  | none =>
    ({ started with isLoading := false },
     awaited.2 ++ [RegisterCall.navigate "/login" "Registration successful! Please login."])
  | some err =>
    ({ started with error := registerErrorMessage err, isLoading := false }, awaited.2)

/-- The rejection of a registration the server answered with
`400 {"username": [...], "password_confirm": [...]}`. -/
def validationErrorExample : SubmitError :=
  { data := some (.object
      [("username", .list ["A user with that username already exists."]),
       ("password_confirm", .list ["Passwords do not match."])]) }

/-- A filled registration form whose passwords differ. -/
def registerFormExample : RegisterState :=
  { username := "alice", password := "pw-one", passwordConfirm := "pw-two", error := "",
    isLoading := false }

/-- The rejection of a token request answered with `400 {"non_field_errors": [""]}`. -/
def emptyMessageExample : RequestError :=
  { response := some
      { status := 400, error := none, detail := none, non_field_errors := some [""] } }

end Foss

namespace Foss

/-! ## Upload: client-side validation -/

/-- C1: for every file whose name does not end in ".csv" and every prior Upload state,
`handleFile` sets `uploadStatus` to the error 'Only CSV files are allowed', leaves the
selected candidate as it was (the file is not made the candidate), and makes no call at
all, so `uploadCSV` is never invoked. -/
theorem handleFile_rejects_non_csv (file : File) (s : UploadState)
    (h : endsWith file.name ".csv" = false) :
    (handleFile file s).1.uploadStatus
        = some { type := "error", message := "Only CSV files are allowed" }
      ∧ (handleFile file s).1.selectedFile = s.selectedFile
      ∧ (handleFile file s).1.isUploading = s.isUploading
      ∧ (handleFile file s).2 = []
      ∧ ∀ f, Call.uploadCSV f ∉ (handleFile file s).2 := by
  simp [handleFile, h]

/-- C1 at a concrete input: a PDF offered while `data.csv` is the candidate. -/
theorem handleFile_rejects_non_csv_witness :
    endsWith "report.pdf" ".csv" = false ∧
    (handleFile { name := "report.pdf", bytes := [37, 80] }
        { UploadState.init with selectedFile := some { name := "data.csv", bytes := [] } }).1.selectedFile
      = some { name := "data.csv", bytes := [] } :=
  ⟨by decide,
   (handleFile_rejects_non_csv { name := "report.pdf", bytes := [37, 80] }
      { UploadState.init with selectedFile := some { name := "data.csv", bytes := [] } }
      (by decide)).2.1⟩

/-! ## Upload: single flight -/

theorem handleFile_calls (file : File) (s : UploadState) : (handleFile file s).2 = [] := by
  unfold handleFile
  split <;> rfl

theorem handleFile_isUploading (file : File) (s : UploadState) :
    (handleFile file s).1.isUploading = s.isUploading := by
  unfold handleFile
  split <;> rfl

theorem handleDrop_calls (files : Option (List File)) (s : UploadState) :
    (handleDrop files s).2 = [] := by
  unfold handleDrop
  split
  · exact handleFile_calls _ _
  · rfl

theorem handleDrop_isUploading (files : Option (List File)) (s : UploadState) :
    (handleDrop files s).1.isUploading = s.isUploading := by
  unfold handleDrop
  split
  · exact handleFile_isUploading _ _
  · rfl

theorem handleFileSelect_calls (files : Option (List File)) (s : UploadState) :
    (handleFileSelect files s).2 = [] := by
  unfold handleFileSelect
  split
  · exact handleFile_calls _ _
  · rfl

theorem handleFileSelect_isUploading (files : Option (List File)) (s : UploadState) :
    (handleFileSelect files s).1.isUploading = s.isUploading := by
  unfold handleFileSelect
  split
  · exact handleFile_isUploading _ _
  · rfl

theorem clickUpload_disabled (s : UploadState) (h : s.isUploading = true) :
    clickUpload s = (s, []) := by
  simp [clickUpload, h]

theorem UploadSys.step_singleFlight (hasCallback : Bool) (sys : UploadSys) (e : UploadEvent)
    (h : sys.SingleFlight) : (UploadSys.step hasCallback sys e).1.SingleFlight := by
  unfold UploadSys.SingleFlight at h ⊢
  cases e with
  | dragIn => simpa [UploadSys.step] using h
  | dragOut => simpa [UploadSys.step] using h
  | drop files =>
    simp only [UploadSys.step, handleDrop_calls, handleDrop_isUploading, uploadsOf,
      List.append_nil]
    exact h
  | fileSelect files =>
    simp only [UploadSys.step]
    split
    · exact h
    · simp only [handleFileSelect_calls, handleFileSelect_isUploading, uploadsOf,
        List.append_nil]
      exact h
  | removeFile =>
    simp only [UploadSys.step]
    split
    · simpa using h
    · exact h
  | clickUpload =>
    obtain ⟨⟨drag, up, status, sel⟩, fl⟩ := sys
    cases sel <;> cases up <;>
      simp_all [UploadSys.step, Foss.clickUpload, handleUploadStart, uploadsOf]
  | uploadSettled outcome =>
    obtain ⟨⟨drag, up, status, sel⟩, fl⟩ := sys
    cases fl with
    | nil => simpa [UploadSys.step] using h
    | cons file rest =>
      cases up with
      | false => simp at h
      | true =>
        have hrest : rest = [] := by simpa using h
        subst hrest
        cases outcome with
        | resolved result =>
          cases hasCallback <;> simp [UploadSys.step, handleUploadResolve, uploadsOf]
        | rejected error => simp [UploadSys.step, handleUploadReject, uploadsOf]

theorem UploadSys.run_singleFlight (hasCallback : Bool) (es : List UploadEvent) :
    ∀ sys : UploadSys, sys.SingleFlight → (UploadSys.run hasCallback sys es).SingleFlight := by
  induction es with
  | nil => intro sys h; exact h
  | cons e es ih =>
    intro sys h
    exact ih _ (UploadSys.step_singleFlight hasCallback sys e h)

theorem UploadSys.init_singleFlight : UploadSys.init.SingleFlight := by
  simp [UploadSys.SingleFlight, UploadSys.init, UploadState.init]

theorem UploadSys.singleFlight_le_one (sys : UploadSys) (h : sys.SingleFlight) :
    sys.inFlight.length ≤ 1 := by
  unfold UploadSys.SingleFlight at h
  rw [h]
  split <;> simp

/-- C2, as stated, fails: `handleUpload` has no guard on `isUploading`. Invoked while an
upload of `data.csv` is in flight, it sends `uploadCSV` again. -/
theorem handleUpload_while_uploading_sends_again :
    uploadingExample.isUploading = true
      ∧ uploadingExample.selectedFile = some { name := "data.csv", bytes := [105, 100] }
      ∧ (handleUploadStart uploadingExample).2
          = [Call.uploadCSV { name := "data.csv", bytes := [105, 100] }] := by
  refine ⟨rfl, rfl, rfl⟩

/-- C2, amended: the guard is on the upload button. For every Upload state with
`isUploading = true`, a click on the upload button makes no call and leaves the state
unchanged; and after every sequence of events on a mounted `Upload` (selections, drops,
removals, clicks, settlings) at most one `uploadCSV` request is in flight. -/
theorem upload_button_single_flight (hasCallback : Bool) :
    (∀ s : UploadState, s.isUploading = true → clickUpload s = (s, []))
      ∧ (∀ sys : UploadSys, sys.state.isUploading = true →
          UploadSys.step hasCallback sys UploadEvent.clickUpload = (sys, []))
      ∧ ∀ es : List UploadEvent,
          (UploadSys.run hasCallback UploadSys.init es).inFlight.length ≤ 1 := by
  refine ⟨clickUpload_disabled, ?_, ?_⟩
  · intro sys h
    simp [UploadSys.step, clickUpload_disabled sys.state h, uploadsOf]
  · intro es
    exact UploadSys.singleFlight_le_one _
      (UploadSys.run_singleFlight hasCallback es _ UploadSys.init_singleFlight)

/-- C2, amended, at a concrete input: a click while `data.csv` is being uploaded. -/
theorem upload_button_single_flight_witness :
    uploadingExample.isUploading = true
      ∧ clickUpload uploadingExample = (uploadingExample, []) :=
  ⟨rfl, (upload_button_single_flight true).1 uploadingExample rfl⟩

/-! ## Dashboard: PDF export -/

theorem clickPdf_disabled (s : DashboardState) (h : s.downloadingPDF = true) :
    clickPdf s = (s, []) := by
  simp [clickPdf, pdfDisabled, h]

theorem clickPdf_enabled (s : DashboardState) (hr : rendersDashboard s = true)
    (hd : pdfDisabled s = false) :
    clickPdf s = ({ s with downloadingPDF := true }, [Call.downloadPDF]) := by
  simp [clickPdf, hr, hd, handleDownloadPDFStart]

theorem DashboardSys.record_nil (sys : DashboardSys) :
    sys.record (sys.state, []) = sys := by
  cases sys
  simp [DashboardSys.record]

/-- While an export is pending, an event other than its settling keeps `downloadingPDF`
set and sends no `downloadPDF` request. -/
theorem DashboardSys.step_pending (sys : DashboardSys) (e : DashboardEvent)
    (hp : sys.state.downloadingPDF = true) (he : e.isPdfSettled = false) :
    (sys.step e).state.downloadingPDF = true
      ∧ (sys.step e).issued.count Call.downloadPDF = sys.issued.count Call.downloadPDF := by
  cases e with
  | toggleUpload =>
    simp only [DashboardSys.step]
    split <;> exact ⟨hp, rfl⟩
  | closeUpload =>
    simp only [DashboardSys.step]
    split <;> exact ⟨hp, rfl⟩
  | openUpload =>
    simp only [DashboardSys.step]
    split <;> exact ⟨hp, rfl⟩
  | uploadSuccess =>
    simp [DashboardSys.step, DashboardSys.record, handleUploadSuccess, fetchStatsStart, hp]
  | fetchSettled outcome =>
    simp only [DashboardSys.step]
    split
    · exact ⟨hp, rfl⟩
    · cases outcome <;> exact ⟨hp, rfl⟩
  | clickPdf =>
    simp only [DashboardSys.step, clickPdf_disabled sys.state hp, DashboardSys.record_nil]
    exact ⟨hp, trivial⟩
  | pdfSettled outcome => simp [DashboardEvent.isPdfSettled] at he

theorem DashboardSys.run_pending (es : List DashboardEvent) :
    ∀ sys : DashboardSys, sys.state.downloadingPDF = true →
      (∀ e ∈ es, DashboardEvent.isPdfSettled e = false) →
      (sys.run es).issued.count Call.downloadPDF = sys.issued.count Call.downloadPDF := by
  induction es with
  | nil => intro sys _ _; rfl
  | cons e es ih =>
    intro sys hp hes
    have hstep := DashboardSys.step_pending sys e hp (hes e (List.mem_cons_self e es))
    have := ih (sys.step e) hstep.1 (fun e' he' => hes e' (List.mem_cons_of_mem e he'))
    simpa [DashboardSys.run, hstep.2] using this

/-- C3, as stated, fails: `handleDownloadPDF` has no guard on `downloadingPDF`. Invoked a
second time while the first export is pending, it sends a second `downloadPDF` request. -/
theorem handleDownloadPDF_while_pending_sends_again :
    (handleDownloadPDFStart readyExample).1.downloadingPDF = true
      ∧ (handleDownloadPDFStart readyExample).2 = [Call.downloadPDF]
      ∧ (handleDownloadPDFStart (handleDownloadPDFStart readyExample).1).2
          = [Call.downloadPDF] := by
  refine ⟨rfl, rfl, rfl⟩

/-- C3, amended: the guard is on the PDF button. For every mounted Dashboard whose PDF
button is enabled, a click followed by any sequence of events made while that export is
still pending (further clicks, upload notifications, fetch settlings, modal toggles)
sends exactly one `downloadPDF` request; each further click on the button while
`downloadingPDF` is set makes no call and leaves the state unchanged. -/
theorem pdf_button_single_flight (sys : DashboardSys) (es : List DashboardEvent)
    (hr : rendersDashboard sys.state = true) (hd : pdfDisabled sys.state = false)
    (hes : ∀ e ∈ es, DashboardEvent.isPdfSettled e = false) :
    (sys.run (DashboardEvent.clickPdf :: es)).issued.count Call.downloadPDF
        = sys.issued.count Call.downloadPDF + 1
      ∧ ∀ s : DashboardState, s.downloadingPDF = true → clickPdf s = (s, []) := by
  refine ⟨?_, clickPdf_disabled⟩
  have hclick : (sys.step DashboardEvent.clickPdf).state.downloadingPDF = true := by
    simp [DashboardSys.step, DashboardSys.record, clickPdf_enabled sys.state hr hd]
  have hcount : (sys.step DashboardEvent.clickPdf).issued.count Call.downloadPDF
      = sys.issued.count Call.downloadPDF + 1 := by
    simp [DashboardSys.step, DashboardSys.record, clickPdf_enabled sys.state hr hd]
  have := DashboardSys.run_pending es (sys.step DashboardEvent.clickPdf) hclick hes
  simpa [DashboardSys.run, hcount] using this

/-- C3, amended, at a concrete input: three rapid clicks on the PDF button of a dashboard
showing three records, an upload notification arriving in between. -/
theorem pdf_button_single_flight_witness :
    ((DashboardSys.run
        { state := readyExample, fetchesInFlight := 0, exportsInFlight := 0, issued := [] }
        [DashboardEvent.clickPdf, DashboardEvent.clickPdf, DashboardEvent.uploadSuccess,
          DashboardEvent.clickPdf]).issued.count Call.downloadPDF = 0 + 1) :=
  (pdf_button_single_flight
    { state := readyExample, fetchesInFlight := 0, exportsInFlight := 0, issued := [] }
    [DashboardEvent.clickPdf, DashboardEvent.uploadSuccess, DashboardEvent.clickPdf]
    (by decide) (by decide) (by decide)).1

/-! ## Dashboard: refresh -/

theorem DashboardSys.step_uploadSuccess (sys : DashboardSys) :
    (sys.step DashboardEvent.uploadSuccess).fetchesInFlight = sys.fetchesInFlight + 1 := by
  simp [DashboardSys.step, DashboardSys.record, handleUploadSuccess, fetchStatsStart]

theorem DashboardSys.run_uploadSuccess (k : Nat) :
    ∀ sys : DashboardSys,
      (sys.run (List.replicate k DashboardEvent.uploadSuccess)).fetchesInFlight
        = sys.fetchesInFlight + k := by
  induction k with
  | zero => intro sys; rfl
  | succ k ih =>
    intro sys
    have := ih (sys.step DashboardEvent.uploadSuccess)
    rw [DashboardSys.step_uploadSuccess] at this
    simp only [DashboardSys.run, List.replicate_succ, List.foldl_cons] at this ⊢
    omega

/-- C4, as stated, fails: `fetchStats` has no in-flight guard and nothing coalesces its
triggers. After the first load, two uploads succeeding one after the other, the second
before the refresh of the first has settled, leave two `getDashboardStats` requests in
flight, three requests having been sent in all. -/
theorem fetchStats_overlapping_in_flight :
    (DashboardSys.run DashboardSys.mount
        [DashboardEvent.fetchSettled (Settled.resolved { total_count := some 3, equipment_data := none }),
          DashboardEvent.openUpload, DashboardEvent.uploadSuccess,
          DashboardEvent.openUpload, DashboardEvent.uploadSuccess]).fetchesInFlight = 2
      ∧ (DashboardSys.run DashboardSys.mount
        [DashboardEvent.fetchSettled (Settled.resolved { total_count := some 3, equipment_data := none }),
          DashboardEvent.openUpload, DashboardEvent.uploadSuccess,
          DashboardEvent.openUpload, DashboardEvent.uploadSuccess]).issued
          = [Call.getDashboardStats, Call.getDashboardStats, Call.getDashboardStats] := by
  refine ⟨rfl, rfl⟩

/-- C4, amended: every trigger of `fetchStats` sends its own `getDashboardStats` request at
once, whether or not another is in flight. `fetchStats` always makes exactly the one
call; an upload notification raises the number of fetches in flight by one; and `k`
notifications arriving while `n` fetches are in flight leave `n + k` in flight: nothing
is deferred or coalesced. -/
theorem fetchStats_no_coalescing (sys : DashboardSys) :
    (fetchStatsStart sys.state).2 = [Call.getDashboardStats]
      ∧ (handleUploadSuccess sys.state).2 = [Call.getDashboardStats]
      ∧ (sys.step DashboardEvent.uploadSuccess).fetchesInFlight = sys.fetchesInFlight + 1
      ∧ ∀ k : Nat,
          (sys.run (List.replicate k DashboardEvent.uploadSuccess)).fetchesInFlight
            = sys.fetchesInFlight + k :=
  ⟨rfl, rfl, DashboardSys.step_uploadSuccess sys, fun k => DashboardSys.run_uploadSuccess k sys⟩

/-! ## Storage -/

theorem truthy_some (s : String) : truthy (some s) = true ↔ s ≠ "" := by
  unfold truthy
  cases s with
  | mk data =>
    cases data with
    | nil => simp [String.length]
    | cons c cs =>
      simp only [String.length, List.length_cons, bne_iff_ne, ne_eq, Nat.add_one_ne_zero,
        not_false_eq_true, true_iff]
      intro h
      have := congrArg String.data h
      simp at this

theorem getItem_setItem_self (storage : Storage) (key value : String) :
    getItem (setItem storage key value) key = some value := by
  induction storage with
  | nil => simp [setItem, getItem]
  | cons kv rest ih =>
    obtain ⟨k, v⟩ := kv
    by_cases h : k = key
    · simp [setItem, getItem, h]
    · simp [setItem, getItem, h, ih]

theorem getItem_setItem_of_ne (storage : Storage) (key value other : String)
    (h : key ≠ other) :
    getItem (setItem storage key value) other = getItem storage other := by
  induction storage with
  | nil => simp [setItem, getItem, h]
  | cons kv rest ih =>
    obtain ⟨k, v⟩ := kv
    by_cases hk : k = key
    · subst hk
      simp [setItem, getItem, h]
    · simp [setItem, getItem, hk, ih]

/-! ## Session: rejected requests -/

/-- C5, as stated, fails: no handler clears the session when a request is rejected. With
`alice` signed in, after `GET /dashboard/` is answered with HTTP 401 the storage still
holds both keys, the user is still set, and the interceptor still attaches the token to the
next request. -/
theorem session_kept_after_401 :
    unauthorizedExample.response.map (·.status) = some 401
      ∧ (App.onReject Endpoint.dashboard unauthorizedExample signedInExample).storage
          = [("authToken", "tok1"), ("username", "alice")]
      ∧ (App.onReject Endpoint.dashboard unauthorizedExample signedInExample).auth.user
          = some { username := "alice", token := "tok1" }
      ∧ getItem
          (requestInterceptor
            (App.onReject Endpoint.dashboard unauthorizedExample signedInExample).storage
            dashboardRequestExample).headers "Authorization" = some "Token tok1" := by
  refine ⟨rfl, rfl, rfl, ?_⟩
  decide

/-- C5, amended: a rejected authorized request (dashboard, history, upload, PDF export),
whatever its status, HTTP 401 included, leaves the persisted session and the current user
unchanged; the request interceptor therefore treats subsequent requests as before, and
while a non-empty `authToken` is stored it keeps attaching `Authorization: Token <token>`. -/
theorem session_unchanged_on_reject (endpoint : Endpoint) (err : RequestError) (a : App) :
    (App.onReject endpoint err a).storage = a.storage
      ∧ (App.onReject endpoint err a).auth = a.auth
      ∧ ∀ config : RequestConfig,
          requestInterceptor (App.onReject endpoint err a).storage config
              = requestInterceptor a.storage config
            ∧ ∀ token : String, getItem a.storage "authToken" = some token → token ≠ "" →
                getItem (requestInterceptor (App.onReject endpoint err a).storage config).headers
                  "Authorization" = some ("Token " ++ token) := by
  have hs : (App.onReject endpoint err a).storage = a.storage := by
    cases endpoint <;> rfl
  have ha : (App.onReject endpoint err a).auth = a.auth := by
    cases endpoint <;> rfl
  refine ⟨hs, ha, fun config => ⟨by rw [hs], fun token hget hne => ?_⟩⟩
  rw [hs]
  simp [requestInterceptor, hget, (truthy_some token).2 hne, getItem_setItem_self]

/-- C5, amended, at a concrete input: the upload of a signed-in user is answered with
HTTP 401, and the next dashboard request still carries the token. -/
theorem session_unchanged_on_reject_witness :
    getItem signedInExample.storage "authToken" = some "tok1" ∧ "tok1" ≠ ""
      ∧ getItem
          (requestInterceptor
            (App.onReject Endpoint.upload unauthorizedExample signedInExample).storage
            dashboardRequestExample).headers "Authorization" = some ("Token " ++ "tok1") :=
  ⟨by decide, by decide,
   ((session_unchanged_on_reject Endpoint.upload unauthorizedExample signedInExample).2.2
      dashboardRequestExample).2 "tok1" (by decide) (by decide)⟩

/-! ## Session: establish and restore -/

theorem restoreEffect_of_stored (storage : Storage) (s : AuthState) (u t : String)
    (ht : getItem storage "authToken" = some t) (hu : getItem storage "username" = some u)
    (hne_t : t ≠ "") (hne_u : u ≠ "") :
    restoreEffect storage s = { user := some { username := u, token := t }, loading := false } := by
  simp [restoreEffect, ht, hu, (truthy_some t).2 hne_t, (truthy_some u).2 hne_u]

/-- C6: for every prior storage content, every prior provider state and every non-empty
username `u` and token `t`, a successful `login` stores `authToken = t` and
`username = u` and sets the user; a fresh restore (the mount effect, run from the initial
provider state on the storage `login` left) yields the user `{username: u, token: t}`,
whatever session was stored before. -/
theorem login_then_restore (storage : Storage) (s : AuthState) (u t : String)
    (hu : u ≠ "") (ht : t ≠ "") :
    getItem (login u (Settled.resolved { token := t }) storage s).1 "authToken" = some t
      ∧ getItem (login u (Settled.resolved { token := t }) storage s).1 "username" = some u
      ∧ (login u (Settled.resolved { token := t }) storage s).2.1.user
          = some { username := u, token := t }
      ∧ restoreEffect (login u (Settled.resolved { token := t }) storage s).1 AuthState.init
          = { user := some { username := u, token := t }, loading := false } := by
  have hk : ("username" : String) ≠ "authToken" := by decide
  have h1 : getItem (login u (Settled.resolved { token := t }) storage s).1 "authToken"
      = some t := by
    simp only [login]
    rw [getItem_setItem_of_ne _ _ _ _ hk, getItem_setItem_self]
  have h2 : getItem (login u (Settled.resolved { token := t }) storage s).1 "username"
      = some u := by
    simp only [login]
    rw [getItem_setItem_self]
  exact ⟨h1, h2, rfl, restoreEffect_of_stored _ _ u t h1 h2 ht hu⟩

/-- C6 at a concrete input: `alice` logs in with `tok1` over a stored session of `bob`;
after a reload the restored user is `alice` with `tok1`. -/
theorem login_then_restore_witness :
    "alice" ≠ "" ∧ "tok1" ≠ ""
      ∧ restoreEffect
          (login "alice" (Settled.resolved { token := "tok1" })
            [("username", "bob"), ("theme", "dark"), ("authToken", "tok0")]
            { user := some { username := "bob", token := "tok0" }, loading := false }).1
          AuthState.init
        = { user := some { username := "alice", token := "tok1" }, loading := false } :=
  ⟨by decide, by decide,
   (login_then_restore [("username", "bob"), ("theme", "dark"), ("authToken", "tok0")]
      { user := some { username := "bob", token := "tok0" }, loading := false }
      "alice" "tok1" (by decide) (by decide)).2.2.2⟩

/-- C7, as stated, fails: the restore effect tests the stored values for truthiness, not
the keys for presence. With both keys present and `username` holding the empty string, no
session is restored. -/
theorem restore_absent_with_both_keys_present :
    getItem [("authToken", "tok1"), ("username", "")] "authToken" = some "tok1"
      ∧ getItem [("authToken", "tok1"), ("username", "")] "username" = some ""
      ∧ (restoreEffect [("authToken", "tok1"), ("username", "")] AuthState.init).user = none := by
  decide

/-- C7, amended: restore yields a session if and only if both `authToken` and `username`
are stored with non-empty values, and then the session's fields equal the stored values;
if either key is missing, or either value is the empty string, the restored user is
absent. In every case `loading` ends false. -/
theorem restore_iff_both_nonempty (storage : Storage) :
    (∀ u t : String,
        (restoreEffect storage AuthState.init).user = some { username := u, token := t }
          ↔ getItem storage "authToken" = some t ∧ getItem storage "username" = some u
              ∧ t ≠ "" ∧ u ≠ "")
      ∧ ((restoreEffect storage AuthState.init).user = none
          ↔ getItem storage "authToken" = none ∨ getItem storage "username" = none
              ∨ getItem storage "authToken" = some "" ∨ getItem storage "username" = some "")
      ∧ (restoreEffect storage AuthState.init).loading = false := by
  cases ht : getItem storage "authToken" with
  | none => simp [restoreEffect, ht, AuthState.init]
  | some t0 =>
    cases hu : getItem storage "username" with
    | none => simp [restoreEffect, ht, hu, AuthState.init]
    | some u0 =>
      have hempty : truthy (some "") = false := by decide
      by_cases hne_t : t0 = ""
      · subst hne_t
        simp only [restoreEffect, ht, hu, hempty, AuthState.init]
        refine ⟨fun u t => ?_, by simp, by simp⟩
        constructor
        · intro h; simp at h
        · rintro ⟨h1, -, h3, -⟩
          simp only [Option.some.injEq] at h1
          exact absurd h1.symm h3
      · by_cases hne_u : u0 = ""
        · subst hne_u
          simp only [restoreEffect, ht, hu, hempty, AuthState.init]
          refine ⟨fun u t => ?_, by simp, by simp⟩
          constructor
          · intro h; simp at h
          · rintro ⟨-, h2, -, h4⟩
            simp only [Option.some.injEq] at h2
            exact absurd h2.symm h4
        · simp only [restoreEffect, ht, hu, (truthy_some t0).2 hne_t, (truthy_some u0).2 hne_u]
          refine ⟨fun u t => ?_, ?_, ?_⟩
          · constructor
            · intro h
              simp only [Bool.and_self, if_true, Option.some.injEq, User.mk.injEq] at h
              obtain ⟨rfl, rfl⟩ := h
              exact ⟨rfl, rfl, hne_t, hne_u⟩
            · rintro ⟨h1, h2, -, -⟩
              simp only [Option.some.injEq] at h1 h2
              subst h1 h2
              simp
          · simp [hne_t, hne_u]
          · simp

/-! ## Upload: outcome of a submit -/

/-- C8: with the prop `onUploadSuccess` set, as `Dashboard` sets it, a run of
`handleUpload` on a candidate calls `onUploadSuccess` exactly once when `uploadCSV`
resolves, after the request and not in the part that runs before it settles; it never
calls it when `uploadCSV` rejects or when there is no candidate; and every notification
makes `handleUploadSuccess` call `fetchStats`, hence `getDashboardStats`, exactly once. -/
theorem refresh_notification_once (s : UploadState) :
    (∀ file : File, s.selectedFile = some file →
        (∀ result : UploadResult,
            (handleUpload true (Settled.resolved result) s).2
                = [Call.uploadCSV file, Call.onUploadSuccess]
              ∧ (handleUpload true (Settled.resolved result) s).2.count Call.onUploadSuccess = 1)
          ∧ (handleUploadStart s).2 = [Call.uploadCSV file]
          ∧ (∀ result : UploadResult,
              (handleUploadResolve true result (handleUploadStart s).1).2
                = [Call.onUploadSuccess])
          ∧ ∀ error : RequestError,
              (handleUpload true (Settled.rejected error) s).2 = [Call.uploadCSV file]
                ∧ (handleUpload true (Settled.rejected error) s).2.count Call.onUploadSuccess = 0)
      ∧ (s.selectedFile = none →
          ∀ outcome : Settled UploadResult, (handleUpload true outcome s).2 = [])
      ∧ ∀ d : DashboardState,
          handleUploadSuccess d = fetchStatsStart { d with showUpload := false }
            ∧ (handleUploadSuccess d).2 = [Call.getDashboardStats]
            ∧ (handleUploadSuccess d).2.count Call.getDashboardStats = 1 := by
  refine ⟨fun file h => ⟨fun result => ?_, ?_, fun result => ?_, fun error => ?_⟩,
    fun h outcome => ?_, fun d => ⟨rfl, rfl, rfl⟩⟩
  · simp [handleUpload, handleUploadStart, handleUploadResolve, h]
  · simp [handleUploadStart, h]
  · simp [handleUploadResolve]
  · simp [handleUpload, handleUploadStart, handleUploadReject, h]
  · simp [handleUpload, handleUploadStart, h]

/-- C8 at a concrete input: `data.csv` is submitted and the server reports 12 records. -/
theorem refresh_notification_once_witness :
    ({ UploadState.init with selectedFile := some { name := "data.csv", bytes := [] } }
        : UploadState).selectedFile = some { name := "data.csv", bytes := [] }
      ∧ (handleUpload true (Settled.resolved { records_created := 12 })
          { UploadState.init with selectedFile := some { name := "data.csv", bytes := [] } }).2
        = [Call.uploadCSV { name := "data.csv", bytes := [] }, Call.onUploadSuccess] :=
  ⟨rfl,
   (((refresh_notification_once
      { UploadState.init with selectedFile := some { name := "data.csv", bytes := [] } }).1
      { name := "data.csv", bytes := [] } rfl).1 { records_created := 12 }).1⟩

/-- C9: for every candidate file and every rejection of `uploadCSV`, after `handleUpload`
completes `selectedFile` is still that file, `uploadStatus` has type 'error' (its message
is the server's `error` text, or 'Upload failed'), and `isUploading` is false; the
`catch` and `finally` blocks never touch `selectedFile`. -/
theorem failed_upload_keeps_candidate (hasCallback : Bool) (s : UploadState) (file : File)
    (error : RequestError) (h : s.selectedFile = some file) :
    (handleUpload hasCallback (Settled.rejected error) s).1.selectedFile = some file
      ∧ (handleUpload hasCallback (Settled.rejected error) s).1.uploadStatus
          = some { type := "error", message := orElse error.dataError "Upload failed" }
      ∧ (handleUpload hasCallback (Settled.rejected error) s).1.isUploading = false
      ∧ ∀ later : UploadState,
          (handleUploadReject error later).1.selectedFile = later.selectedFile := by
  refine ⟨?_, ?_, ?_, fun later => rfl⟩ <;>
    simp [handleUpload, handleUploadStart, handleUploadReject, h]

/-- C9 at a concrete input: the upload of `data.csv` gets no response. -/
theorem failed_upload_keeps_candidate_witness :
    ({ UploadState.init with selectedFile := some { name := "data.csv", bytes := [] } }
        : UploadState).selectedFile = some { name := "data.csv", bytes := [] }
      ∧ (handleUpload true (Settled.rejected { response := none })
          { UploadState.init with selectedFile := some { name := "data.csv", bytes := [] } }).1.selectedFile
        = some { name := "data.csv", bytes := [] }
      ∧ (handleUpload true (Settled.rejected { response := none })
          { UploadState.init with selectedFile := some { name := "data.csv", bytes := [] } }).1.uploadStatus
        = some { type := "error", message := orElse (RequestError.dataError { response := none }) "Upload failed" } :=
  ⟨rfl,
   (failed_upload_keeps_candidate true
      { UploadState.init with selectedFile := some { name := "data.csv", bytes := [] } }
      { name := "data.csv", bytes := [] } { response := none } rfl).1,
   (failed_upload_keeps_candidate true
      { UploadState.init with selectedFile := some { name := "data.csv", bytes := [] } }
      { name := "data.csv", bytes := [] } { response := none } rfl).2.1⟩

/-- Up to `2 ^ 53` a number is written with the decimal digits of the integer. -/
theorem numberText_of_lt (n : Nat) (h : n < 2 ^ 53) : numberText n = toString n := by
  unfold numberText
  rw [if_pos h]

/-- The bound from which the nearest double is infinite. -/
theorem infinity_bound : (2 ^ 54 - 1) * (2 ^ 194) ^ 5 = 2 ^ 1024 - 2 ^ 970 := by
  norm_num

set_option maxRecDepth 100000 in
/-- From `10 ^ 21` on a number is written in exponent notation; below, a number above
`2 ^ 53` is written with the shortest digits of its double, then zeros. -/
theorem numberText_large :
    numberText (10 ^ 21) = "1e+21"
      ∧ numberText (10 ^ 21 - 1) = "1e+21"
      ∧ numberText (10 ^ 20) = "100000000000000000000"
      ∧ numberText (2 ^ 53 + 1) = "9007199254740992"
      ∧ numberText (2 ^ 60) = "1152921504606847000"
      ∧ numberText 123456789012345678901234567890 = "1.2345678901234568e+29" := by
  refine ⟨?_, ?_, ?_, ?_, ?_, ?_⟩ <;> decide

/-- C10: for every candidate file and every server result with `records_created = n`,
after `handleUpload` completes `selectedFile` is null, `isUploading` is false, and
`uploadStatus` is `{type: 'success', message: 'Successfully uploaded n records'}`, `n`
written as the template literal writes that number: with the decimal digits of `n` when
`n` is below `2 ^ 53`; `isDragging` is as it was. -/
theorem successful_upload_discards_candidate (hasCallback : Bool) (s : UploadState)
    (file : File) (n : Nat) (h : s.selectedFile = some file) :
    (handleUpload hasCallback (Settled.resolved { records_created := n }) s).1
        = { isDragging := s.isDragging
            isUploading := false
            uploadStatus := some
              { type := "success"
                message := "Successfully uploaded " ++ numberText n ++ " records" }
            selectedFile := none }
      ∧ (n < 2 ^ 53 → numberText n = toString n) := by
  refine ⟨?_, numberText_of_lt n⟩
  simp [handleUpload, handleUploadStart, handleUploadResolve, h]

/-- C10 at a concrete input: `equipment.csv` is uploaded and the server reports 12 records. -/
theorem successful_upload_discards_candidate_witness :
    ({ UploadState.init with selectedFile := some { name := "equipment.csv", bytes := [] } }
        : UploadState).selectedFile = some { name := "equipment.csv", bytes := [] }
      ∧ "Successfully uploaded " ++ numberText 12 ++ " records" = "Successfully uploaded 12 records"
      ∧ (handleUpload true (Settled.resolved { records_created := 12 })
          { UploadState.init with selectedFile := some { name := "equipment.csv", bytes := [] } }).1
        = { isDragging := UploadState.init.isDragging
            isUploading := false
            uploadStatus := some
              { type := "success"
                message := "Successfully uploaded " ++ numberText 12 ++ " records" }
            selectedFile := none } :=
  ⟨rfl, by decide,
   (successful_upload_discards_candidate true
      { UploadState.init with selectedFile := some { name := "equipment.csv", bytes := [] } }
      { name := "equipment.csv", bytes := [] } 12 rfl).1⟩

/-! ## Upload: submit without a candidate -/

/-- C11: for every Upload state with `selectedFile = null`, `handleUpload` makes no call
at all (no network request, no `onUploadSuccess`) and leaves the whole state, so
`isUploading`, `uploadStatus` and `selectedFile`, unchanged, however the request would
have settled; a click on the upload button does the same. -/
theorem submit_without_candidate (hasCallback : Bool) (outcome : Settled UploadResult)
    (s : UploadState) (h : s.selectedFile = none) :
    handleUpload hasCallback outcome s = (s, [])
      ∧ handleUploadStart s = (s, [])
      ∧ clickUpload s = (s, [])
      ∧ (handleUpload hasCallback outcome s).1.isUploading = s.isUploading
      ∧ (handleUpload hasCallback outcome s).1.uploadStatus = s.uploadStatus
      ∧ (handleUpload hasCallback outcome s).1.selectedFile = s.selectedFile
      ∧ ∀ c ∈ (handleUpload hasCallback outcome s).2,
          c.isRequest = false ∧ c ≠ Call.onUploadSuccess := by
  have h1 : handleUploadStart s = (s, []) := by simp [handleUploadStart, h]
  have h2 : handleUpload hasCallback outcome s = (s, []) := by simp [handleUpload, h, h1]
  refine ⟨h2, h1, ?_, ?_, ?_, ?_, ?_⟩
  · simp [clickUpload, h]
  · rw [h2]
  · rw [h2]
  · rw [h2]
  · rw [h2]; simp

/-- C11 at a concrete input: a submit on a state that shows the error of a rejected
selection and holds no candidate. -/
theorem submit_without_candidate_witness :
    ({ UploadState.init with
        uploadStatus := some { type := "error", message := "Only CSV files are allowed" } }
        : UploadState).selectedFile = none
      ∧ handleUpload true (Settled.resolved { records_created := 12 })
          { UploadState.init with
            uploadStatus := some { type := "error", message := "Only CSV files are allowed" } }
        = ({ UploadState.init with
            uploadStatus := some { type := "error", message := "Only CSV files are allowed" } },
           []) :=
  ⟨rfl,
   (submit_without_candidate true (Settled.resolved { records_created := 12 })
      { UploadState.init with
        uploadStatus := some { type := "error", message := "Only CSV files are allowed" } }
      rfl).1⟩

/-! ## Dashboard: outcome of a fetch -/

/-- C12: for every Dashboard state and every rejection of `getDashboardStats`, after
`fetchStats` completes `stats` is the snapshot it was (absent if it was absent), `error`
is 'Failed to load dashboard data' and `loading` is false; the other cells are as they
were, and exactly one request was made. -/
theorem failed_fetch_keeps_snapshot (err : RequestError) (d : DashboardState) :
    (fetchStats (Settled.rejected err) d).1
        = { d with error := some "Failed to load dashboard data", loading := false }
      ∧ (fetchStats (Settled.rejected err) d).1.stats = d.stats
      ∧ (fetchStats (Settled.rejected err) d).1.error = some "Failed to load dashboard data"
      ∧ (fetchStats (Settled.rejected err) d).1.loading = false
      ∧ (fetchStats (Settled.rejected err) d).2 = [Call.getDashboardStats] :=
  ⟨rfl, rfl, rfl, rfl, rfl⟩

/-- C13: for every prior Dashboard state, one with a prior error and a prior snapshot
included, and every payload `data` of `getDashboardStats`, after `fetchStats` completes
`stats` is exactly `data`, `error` is null and `loading` is false; the other cells are as
they were. -/
theorem successful_fetch_replaces_snapshot (data : DashboardStats) (d : DashboardState) :
    (fetchStats (Settled.resolved data) d).1
        = { d with stats := some data, error := none, loading := false }
      ∧ (fetchStats (Settled.resolved data) d).1.stats = some data
      ∧ (fetchStats (Settled.resolved data) d).1.error = none
      ∧ (fetchStats (Settled.resolved data) d).1.loading = false
      ∧ (fetchStats (Settled.resolved data) d).2 = [Call.getDashboardStats] :=
  ⟨rfl, rfl, rfl, rfl, rfl⟩

/-- C14: from the initial Dashboard state (`stats = null`, `loading = true`,
`error = null`), if the first `getDashboardStats` call rejects, the resulting state has
`error` set and `stats` absent, and the dashboard is rendered with the error banner and
the empty-table branch, so with no equipment row; the mounted component reaches that
state when its first fetch settles so. -/
theorem first_load_failure_shows_only_error (err : RequestError) :
    DashboardState.init
        = { stats := none, loading := true, error := none, showUpload := false,
            downloadingPDF := false }
      ∧ (fetchStats (Settled.rejected err) DashboardState.init).1.error
          = some "Failed to load dashboard data"
      ∧ (fetchStats (Settled.rejected err) DashboardState.init).1.stats = none
      ∧ renderDashboard (fetchStats (Settled.rejected err) DashboardState.init).1
          = DashboardRender.dashboard
              { pdfDisabled := true, uploadModal := false,
                errorBanner := some "Failed to load dashboard data", totalCount := 0,
                tableSection := TableSection.emptyTable }
      ∧ TableSection.emptyTable.rows = []
      ∧ (DashboardSys.run DashboardSys.mount
            [DashboardEvent.fetchSettled (Settled.rejected err)]).state
          = (fetchStats (Settled.rejected err) DashboardState.init).1 := by
  refine ⟨rfl, rfl, rfl, ?_, rfl, rfl⟩
  have hstate : (fetchStats (Settled.rejected err) DashboardState.init).1
      = { stats := none, loading := false, error := some "Failed to load dashboard data",
          showUpload := false, downloadingPDF := false } := rfl
  rw [hstate]
  decide

/-! ## Dashboard: export without data -/

/-- C15: for every Dashboard state in which `stats` is absent, or `stats.total_count` is
absent or equal to 0, the `disabled` predicate of the PDF button
(`downloadingPDF || !stats?.total_count`) is true, and a click on the button makes no
call and leaves the state unchanged; the rendered button carries that attribute. -/
theorem export_disabled_without_data (s : DashboardState)
    (h : s.stats = none
      ∨ ∃ stats : DashboardStats,
          s.stats = some stats ∧ (stats.total_count = none ∨ stats.total_count = some 0)) :
    pdfDisabled s = true
      ∧ clickPdf s = (s, [])
      ∧ (∀ sys : DashboardSys, sys.state = s → sys.step DashboardEvent.clickPdf = sys)
      ∧ ∀ view : DashboardView,
          renderDashboard s = DashboardRender.dashboard view → view.pdfDisabled = true := by
  have hc : hasTotalCount s = false := by
    rcases h with h | ⟨stats, hs, h | h⟩
    · simp [hasTotalCount, h]
    · simp [hasTotalCount, hs, h]
    · simp [hasTotalCount, hs, h]
  have hd : pdfDisabled s = true := by simp [pdfDisabled, hc]
  have hk : clickPdf s = (s, []) := by simp [clickPdf, hd]
  refine ⟨hd, hk, ?_, ?_⟩
  · intro sys hsys
    subst hsys
    simp [DashboardSys.step, hk, DashboardSys.record_nil]
  · intro view hv
    unfold renderDashboard at hv
    split at hv
    · cases hv
    · cases hv
      exact hd

/-- C15 at a concrete input: the server reports a snapshot with `total_count = 0`. -/
theorem export_disabled_without_data_witness :
    (∃ stats : DashboardStats,
        (fetchStats (Settled.resolved { total_count := some 0, equipment_data := some [] })
            DashboardState.init).1.stats = some stats
          ∧ (stats.total_count = none ∨ stats.total_count = some 0))
      ∧ clickPdf
          (fetchStats (Settled.resolved { total_count := some 0, equipment_data := some [] })
            DashboardState.init).1
        = ((fetchStats (Settled.resolved { total_count := some 0, equipment_data := some [] })
            DashboardState.init).1, []) :=
  ⟨⟨{ total_count := some 0, equipment_data := some [] }, rfl, Or.inr rfl⟩,
   (export_disabled_without_data
      (fetchStats (Settled.resolved { total_count := some 0, equipment_data := some [] })
        DashboardState.init).1
      (Or.inr ⟨{ total_count := some 0, equipment_data := some [] }, rfl, Or.inr rfl⟩)).2.1⟩

/-! ## Gateway: the request interceptor -/

/-- C16: for every request config and storage state, if storage holds a non-empty
`authToken` `t`, the outgoing config has the header `Authorization` equal to "Token "
followed by `t` and is otherwise unchanged (same method, same url, every other header as
it was); if no token is stored, the config is returned unchanged, so no `Authorization`
header is added. -/
theorem interceptor_attaches_iff_token (storage : Storage) (config : RequestConfig) :
    (∀ t : String, getItem storage "authToken" = some t → t ≠ "" →
        getItem (requestInterceptor storage config).headers "Authorization"
            = some ("Token " ++ t)
          ∧ (requestInterceptor storage config).headers
              = setItem config.headers "Authorization" ("Token " ++ t)
          ∧ (requestInterceptor storage config).method = config.method
          ∧ (requestInterceptor storage config).url = config.url
          ∧ ∀ header : String, header ≠ "Authorization" →
              getItem (requestInterceptor storage config).headers header
                = getItem config.headers header)
      ∧ (getItem storage "authToken" = none →
          requestInterceptor storage config = config
            ∧ getItem (requestInterceptor storage config).headers "Authorization"
                = getItem config.headers "Authorization") := by
  constructor
  · intro t hget hne
    have hc : requestInterceptor storage config
        = { config with headers := setItem config.headers "Authorization" ("Token " ++ t) } := by
      simp [requestInterceptor, hget, (truthy_some t).2 hne]
    rw [hc]
    refine ⟨getItem_setItem_self _ _ _, rfl, rfl, rfl, fun header hh => ?_⟩
    exact getItem_setItem_of_ne _ _ _ _ (Ne.symm hh)
  · intro hget
    have hc : requestInterceptor storage config = config := by
      simp [requestInterceptor, hget]
    rw [hc]
    exact ⟨rfl, rfl⟩

/-- C16 at a concrete input: the dashboard request of the signed-in user `alice`. -/
theorem interceptor_attaches_iff_token_witness :
    getItem signedInExample.storage "authToken" = some "tok1" ∧ "tok1" ≠ ""
      ∧ (requestInterceptor signedInExample.storage dashboardRequestExample).headers
          = setItem dashboardRequestExample.headers "Authorization" ("Token " ++ "tok1")
      ∧ (getItem [("theme", "dark")] "authToken" = none
          ∧ requestInterceptor [("theme", "dark")] dashboardRequestExample
              = dashboardRequestExample) :=
  ⟨by decide, by decide,
   ((interceptor_attaches_iff_token signedInExample.storage dashboardRequestExample).1
      "tok1" (by decide) (by decide)).2.1,
   by decide,
   ((interceptor_attaches_iff_token [("theme", "dark")] dashboardRequestExample).2
      (by decide)).1⟩

/-! ## Session: logout -/

theorem getItem_removeItem_self (storage : Storage) (key : String) :
    getItem (removeItem storage key) key = none := by
  induction storage with
  | nil => rfl
  | cons kv rest ih =>
    obtain ⟨k, v⟩ := kv
    by_cases h : k = key
    · simp [removeItem, h, ih]
    · simp [removeItem, getItem, h, ih]

theorem getItem_removeItem_of_ne (storage : Storage) (key other : String) (h : key ≠ other) :
    getItem (removeItem storage key) other = getItem storage other := by
  induction storage with
  | nil => rfl
  | cons kv rest ih =>
    obtain ⟨k, v⟩ := kv
    by_cases hk : k = key
    · subst hk
      simp [removeItem, getItem, h, ih]
    · simp [removeItem, getItem, hk, ih]

theorem removeItem_of_getItem_none (storage : Storage) (key : String)
    (h : getItem storage key = none) : removeItem storage key = storage := by
  induction storage with
  | nil => rfl
  | cons kv rest ih =>
    obtain ⟨k, v⟩ := kv
    by_cases hk : k = key
    · simp [getItem, hk] at h
    · simp only [getItem, hk, if_false] at h
      simp [removeItem, hk, ih h]

theorem apiLogout_authToken (storage : Storage) :
    getItem (apiLogout storage) "authToken" = none := by
  unfold apiLogout
  rw [getItem_removeItem_of_ne _ _ _ (by decide), getItem_removeItem_self]

theorem apiLogout_username (storage : Storage) :
    getItem (apiLogout storage) "username" = none := by
  unfold apiLogout
  exact getItem_removeItem_self _ _

theorem apiLogout_idempotent (storage : Storage) :
    apiLogout (apiLogout storage) = apiLogout storage := by
  have h1 : removeItem (apiLogout storage) "authToken" = apiLogout storage :=
    removeItem_of_getItem_none _ _ (apiLogout_authToken storage)
  have h2 : removeItem (apiLogout storage) "username" = apiLogout storage :=
    removeItem_of_getItem_none _ _ (apiLogout_username storage)
  have h3 : apiLogout (apiLogout storage)
      = removeItem (removeItem (apiLogout storage) "authToken") "username" := rfl
  rw [h3, h1, h2]

/-- C17: for every storage state, `logout` removes both `authToken` and `username` and
leaves every other key as it was; applying it twice gives the same storage (and the same
provider state) as applying it once; it sets the user to null; and a restore performed
after it yields no session. -/
theorem logout_clears_session (storage : Storage) (s : AuthState) :
    getItem (apiLogout storage) "authToken" = none
      ∧ getItem (apiLogout storage) "username" = none
      ∧ (∀ key : String, key ≠ "authToken" → key ≠ "username" →
          getItem (apiLogout storage) key = getItem storage key)
      ∧ apiLogout (apiLogout storage) = apiLogout storage
      ∧ (logout storage s).1 = apiLogout storage
      ∧ (logout storage s).2.user = none
      ∧ logout (logout storage s).1 (logout storage s).2 = logout storage s
      ∧ (restoreEffect (logout storage s).1 AuthState.init).user = none := by
  refine ⟨apiLogout_authToken storage, apiLogout_username storage, ?_,
    apiLogout_idempotent storage, rfl, rfl, ?_, ?_⟩
  · intro key h1 h2
    unfold apiLogout
    rw [getItem_removeItem_of_ne _ _ _ (Ne.symm h2), getItem_removeItem_of_ne _ _ _ (Ne.symm h1)]
  · simp [logout, apiLogout_idempotent]
  · simp [logout, restoreEffect, apiLogout_authToken, AuthState.init]

/-- C17 at a concrete input: `alice` logs out; the `theme` key stays. -/
theorem logout_clears_session_witness :
    "theme" ≠ "authToken" ∧ "theme" ≠ "username"
      ∧ getItem (apiLogout [("authToken", "tok1"), ("theme", "dark"), ("username", "alice")])
          "theme"
        = getItem [("authToken", "tok1"), ("theme", "dark"), ("username", "alice")] "theme"
      ∧ apiLogout [("authToken", "tok1"), ("theme", "dark"), ("username", "alice")]
        = [("theme", "dark")] :=
  ⟨by decide, by decide,
   (logout_clears_session [("authToken", "tok1"), ("theme", "dark"), ("username", "alice")]
      AuthState.init).2.2.1 "theme" (by decide) (by decide),
   by decide⟩

/-! ## Dashboard: outcome of an export -/

/-- C18: for every outcome of `downloadPDF`, resolve or reject, after `handleDownloadPDF`
completes `downloadingPDF` is false and the promise of the handler resolves, so no error
leaves the handler; the stats snapshot and the dashboard error are as they were, indeed
every cell but `downloadingPDF` is, and the PDF button is disabled afterwards only if
there is no data to export. -/
theorem export_reenabled_after_settling (outcome : Settled (List Nat)) (s : DashboardState) :
    (handleDownloadPDF outcome s).1.1.downloadingPDF = false
      ∧ (handleDownloadPDF outcome s).2 = Settled.resolved ()
      ∧ (handleDownloadPDF outcome s).1.1.stats = s.stats
      ∧ (handleDownloadPDF outcome s).1.1.error = s.error
      ∧ (handleDownloadPDF outcome s).1.1 = { s with downloadingPDF := false }
      ∧ (handleDownloadPDF outcome s).1.2 = [Call.downloadPDF]
      ∧ pdfDisabled (handleDownloadPDF outcome s).1.1 = !hasTotalCount s := by
  refine ⟨rfl, rfl, rfl, rfl, rfl, rfl, ?_⟩
  simp [handleDownloadPDF, handleDownloadPDFSettle, handleDownloadPDFStart, pdfDisabled,
    hasTotalCount]

/-! ## History: the list as the server sent it -/

theorem historyRows_eq (batches : List BatchSummary) :
    (if batches.length = 0 then [] else batches.map historyRow) = batches.map historyRow := by
  cases batches <;> simp

/-- C19: for every list `L` returned by `GET /history/`, of any length and order, after
`fetchHistory` completes the `history` cell is exactly `L`; and, the fetch being the one
of the mount (or any state without an error), the card is rendered with the rows made of
the elements of `L` in the same order, one row per element, the row at each position
made of the element at that position and keyed by its `id`. -/
theorem history_shows_server_list (batches : List BatchSummary) (s : HistoryState) :
    (fetchHistory (Settled.resolved batches) s).1.history = batches
      ∧ (fetchHistory (Settled.resolved batches) s).2 = [Call.getHistory]
      ∧ (s.error = none →
          renderHistory (fetchHistory (Settled.resolved batches) s).1
            = HistoryRender.card (decide (0 < batches.length)) (decide (batches.length = 0))
                (batches.map historyRow))
      ∧ renderHistory (fetchHistory (Settled.resolved batches) HistoryState.init).1
          = HistoryRender.card (decide (0 < batches.length)) (decide (batches.length = 0))
              (batches.map historyRow)
      ∧ (batches.map historyRow).length = batches.length
      ∧ (∀ i : Nat, (batches.map historyRow)[i]? = (batches[i]?).map historyRow)
      ∧ (batches.map historyRow).map (·.key) = batches.map (·.id) := by
  have hr : ∀ st : HistoryState, st.error = none →
      renderHistory (fetchHistory (Settled.resolved batches) st).1
        = HistoryRender.card (decide (0 < batches.length)) (decide (batches.length = 0))
            (batches.map historyRow) := by
    intro st hst
    simp only [renderHistory, fetchHistory, fetchHistoryStart, fetchHistoryResolve, hst,
      historyRows_eq]
    simp
  refine ⟨rfl, rfl, hr s, hr HistoryState.init rfl, by simp, fun i => by simp, ?_⟩
  simp [historyRow]

/-- C19 at a concrete input: the server sends two batches, the older one first; the card
shows them in that order. -/
theorem history_shows_server_list_witness :
    HistoryState.init.error = none
      ∧ renderHistory (fetchHistory (Settled.resolved historyExample) HistoryState.init).1
        = HistoryRender.card (decide (0 < historyExample.length))
            (decide (historyExample.length = 0)) (historyExample.map historyRow)
      ∧ (historyExample.map historyRow).map (·.batchId) = ["#4", "#9"] :=
  ⟨rfl, (history_shows_server_list historyExample HistoryState.init).2.2.1 rfl, by decide⟩

/-! ## Upload: selecting again -/

/-- C20: for every Upload state that holds a candidate `f1` and every file `f2` whose name
ends in ".csv", `handleFile(f2)` makes `f2` the selected candidate, the only one held
(`f1` is no longer held unless it is `f2`), clears `uploadStatus` to null, leaves
`isUploading` and `isDragging` unchanged and makes no call; a drop of `f2` does the same;
and in every state a mounted `Upload` reaches, at most one candidate is held. -/
theorem reselect_replaces_candidate (s : UploadState) (f1 f2 : File)
    (h1 : s.selectedFile = some f1) (h2 : endsWith f2.name ".csv" = true) :
    s.selectedFile.toList = [f1]
      ∧ (handleFile f2 s).1.selectedFile.toList = [f2]
      ∧ (handleFile f2 s).1 = { s with selectedFile := some f2, uploadStatus := none }
      ∧ (handleFile f2 s).1.uploadStatus = none
      ∧ (handleFile f2 s).1.isUploading = s.isUploading
      ∧ (handleFile f2 s).2 = []
      ∧ (f1 ≠ f2 → (handleFile f2 s).1.selectedFile ≠ some f1)
      ∧ (∀ others : List File,
          (handleDrop (some (f2 :: others)) s).1
            = { s with isDragging := false, selectedFile := some f2, uploadStatus := none })
      ∧ ∀ (hasCallback : Bool) (es : List UploadEvent),
          (UploadSys.run hasCallback UploadSys.init es).state.selectedFile.toList.length ≤ 1 := by
  have hf : ∀ st : UploadState,
      handleFile f2 st = ({ st with selectedFile := some f2, uploadStatus := none }, []) := by
    intro st
    simp [handleFile, h2]
  refine ⟨by simp [h1], by simp [hf], by simp [hf], by simp [hf], by simp [hf], by simp [hf],
    ?_, ?_, ?_⟩
  · intro hne
    simp only [hf, ne_eq, Option.some.injEq]
    exact fun h => hne h.symm
  · intro others
    simp [handleDrop, hf]
  · intro hasCallback es
    cases (UploadSys.run hasCallback UploadSys.init es).state.selectedFile <;> simp

/-- C20 at a concrete input: `new.csv` is dropped while `old.csv` is the candidate. -/
theorem reselect_replaces_candidate_witness :
    uploadingExample.selectedFile = some { name := "data.csv", bytes := [105, 100] }
      ∧ endsWith "new.csv" ".csv" = true
      ∧ (handleFile { name := "new.csv", bytes := [1] } uploadingExample).1.selectedFile.toList
        = [{ name := "new.csv", bytes := [1] }] :=
  ⟨rfl, by decide,
   (reselect_replaces_candidate uploadingExample
      { name := "data.csv", bytes := [105, 100] } { name := "new.csv", bytes := [1] }
      rfl (by decide)).2.1⟩

/-! ## Registration: errors shown on submit -/

/-- The `catch` block of `handleSubmit` on a structured body: the texts of the fields in
entry order, joined by single spaces, a list giving its entries joined by single spaces. -/
theorem registerErrorMessage_object (entries : List (String × FieldMessages)) :
    registerErrorMessage { data := some (.object entries) }
      = " ".intercalate (entries.map fun entry => fieldText entry.2) := rfl

/-- Whatever the server would answer, `handleSubmit` sends nothing and ends with the
connectivity message: the default export `api` has no member `register`. -/
theorem handleSubmit_always_unable_to_connect (server : Option SubmitError)
    (s : RegisterState) :
    handleSubmit server s
      = ({ s with error := "Unable to connect to server.", isLoading := false }, []) := by
  have h : awaitApiRegister { s with error := "", isLoading := true } server
      = (some { data := none }, []) := by
    unfold awaitApiRegister
    rw [if_neg (by decide)]
  simp [handleSubmit, h, registerErrorMessage]

/-- C21, on the code: `register` is a named export of `services/api.js`, not a member of
the default export that `Register.jsx` imports as `api`. A submit whose request the server
would reject with a structured body, for which the `catch` block would show the joined
messages, sends no request and shows 'Unable to connect to server.'. -/
theorem register_validation_errors_not_shown :
    "register" ∈ apiNamedExports
      ∧ "register" ∉ apiInstanceMembers
      ∧ registerErrorMessage validationErrorExample
          = "A user with that username already exists. Passwords do not match."
      ∧ handleSubmit (some validationErrorExample) registerFormExample
          = ({ registerFormExample with
                error := "Unable to connect to server.", isLoading := false }, []) := by
  refine ⟨by decide, by decide, by decide, ?_⟩
  exact handleSubmit_always_unable_to_connect _ _

/-! ## Session: a failed login -/

/-- C22, as stated, fails: the fallback is taken by `||`, so a first entry of
`non_field_errors` that is the empty string is replaced by 'Login failed'. -/
theorem login_empty_first_error_replaced :
    emptyMessageExample.firstNonFieldError = some ""
      ∧ (login "alice" (Settled.rejected emptyMessageExample) [] AuthState.init).2.2
          = { success := false, error := some "Login failed" } := by
  decide

/-- C22, amended: `login` always returns a value. For every rejection of the token request
it returns `{success: false, error: e}`, where `e` is the first entry of the response's
`non_field_errors` if there is one and it is not the empty string, and 'Login failed'
otherwise, and storage and the provider state, the current user included, are exactly as
they were; on success it returns `{success: true}`. -/
theorem failed_login_changes_nothing (username : String) (storage : Storage) (s : AuthState) :
    (∀ err : RequestError,
        (login username (Settled.rejected err) storage s).1 = storage
          ∧ (login username (Settled.rejected err) storage s).2.1 = s
          ∧ (login username (Settled.rejected err) storage s).2.1.user = s.user
          ∧ (login username (Settled.rejected err) storage s).2.2.success = false
          ∧ (∀ e : String, err.firstNonFieldError = some e → e ≠ "" →
              (login username (Settled.rejected err) storage s).2.2.error = some e)
          ∧ (err.firstNonFieldError = none ∨ err.firstNonFieldError = some "" →
              (login username (Settled.rejected err) storage s).2.2.error
                = some "Login failed"))
      ∧ ∀ data : LoginData,
          (login username (Settled.resolved data) storage s).2.2
            = { success := true, error := none } := by
  refine ⟨fun err => ⟨rfl, rfl, rfl, rfl, fun e he hne => ?_, fun h => ?_⟩, fun data => rfl⟩
  · have ht : (e.length != 0) = true := (truthy_some e).2 hne
    simp [login, orElse, he, ht]
  · rcases h with h | h
    · simp [login, orElse, h]
    · simp [login, orElse, h]

/-- C22, amended, at a concrete input: the server answers a wrong password with
`{"non_field_errors": ["Unable to log in with provided credentials."]}`. -/
theorem failed_login_changes_nothing_witness :
    RequestError.firstNonFieldError
        { response := some
            { status := 400, error := none, detail := none,
              non_field_errors := some ["Unable to log in with provided credentials."] } }
        = some "Unable to log in with provided credentials."
      ∧ "Unable to log in with provided credentials." ≠ ""
      ∧ (login "alice"
          (Settled.rejected
            { response := some
                { status := 400, error := none, detail := none,
                  non_field_errors := some ["Unable to log in with provided credentials."] } })
          signedInExample.storage signedInExample.auth).2.2.error
        = some "Unable to log in with provided credentials." :=
  ⟨rfl, by decide,
   ((failed_login_changes_nothing "alice" signedInExample.storage signedInExample.auth).1
      { response := some
          { status := 400, error := none, detail := none,
            non_field_errors := some ["Unable to log in with provided credentials."] } }).2.2.2.2.1
      "Unable to log in with provided credentials." rfl (by decide)⟩

/-! ## Upload: the extension check -/

theorem endsWith_iff (name suffix : String) :
    endsWith name suffix = true ↔ ∃ stem : List Char, name.data = stem ++ suffix.data := by
  unfold endsWith
  rw [List.isSuffixOf_iff_suffix]
  constructor
  · rintro ⟨stem, h⟩
    exact ⟨stem, h.symm⟩
  · rintro ⟨stem, h⟩
    exact ⟨stem, h.symm⟩

/-- A name that ends in a four-character extension other than ".csv" fails the check. -/
theorem endsWith_csv_other_extension (stem ext : String) (hlen : ext.data.length = 4)
    (hne : ext.data ≠ ".csv".data) : endsWith (stem ++ ext) ".csv" = false := by
  rw [Bool.eq_false_iff, Ne, endsWith_iff]
  rintro ⟨front, h⟩
  rw [String.data_append] at h
  have hcsv : ".csv".data.length = 4 := by decide
  exact hne (List.append_inj_right' h (by rw [hlen, hcsv]))

/-- C23: `handleFile` accepts a file (makes it the candidate and clears the status) if and
only if its name ends with the four characters ".csv", compared exactly: the name is some
characters followed by `.`, `c`, `s`, `v`. A name ending in ".CSV" or ".Csv" is rejected
with the validation error, and the name ".csv" itself is accepted. -/
theorem csv_check_exact_suffix (file : File) (s : UploadState) :
    ((handleFile file s).1.selectedFile = some file ∧ (handleFile file s).1.uploadStatus = none
        ↔ endsWith file.name ".csv" = true)
      ∧ (endsWith file.name ".csv" = true
          ↔ ∃ stem : List Char, file.name.data = stem ++ ".csv".data)
      ∧ ".csv".data.length = 4
      ∧ (endsWith file.name ".csv" = true →
          handleFile file s = ({ s with selectedFile := some file, uploadStatus := none }, []))
      ∧ (endsWith file.name ".csv" = false →
          handleFile file s
            = ({ s with
              uploadStatus := some { type := "error", message := "Only CSV files are allowed" } }, []))
      ∧ (∀ stem : String,
          endsWith (stem ++ ".CSV") ".csv" = false ∧ endsWith (stem ++ ".Csv") ".csv" = false)
      ∧ endsWith ".csv" ".csv" = true := by
  refine ⟨?_, endsWith_iff _ _, by decide, ?_, ?_, fun stem => ⟨?_, ?_⟩, by decide⟩
  · cases h : endsWith file.name ".csv" <;> simp [handleFile, h]
  · intro h
    simp [handleFile, h]
  · intro h
    simp [handleFile, h]
  · exact endsWith_csv_other_extension stem ".CSV" (by decide) (by decide)
  · exact endsWith_csv_other_extension stem ".Csv" (by decide) (by decide)

/-- C23 at concrete inputs: `DATA.CSV` is rejected, the file named `.csv` is accepted. -/
theorem csv_check_exact_suffix_witness :
    endsWith "DATA.CSV" ".csv" = false
      ∧ handleFile { name := "DATA.CSV", bytes := [] } UploadState.init
          = ({ UploadState.init with
              uploadStatus := some { type := "error", message := "Only CSV files are allowed" } }, [])
      ∧ endsWith ".csv" ".csv" = true
      ∧ handleFile { name := ".csv", bytes := [] } UploadState.init
          = ({ UploadState.init with
                selectedFile := some { name := ".csv", bytes := [] }, uploadStatus := none }, []) :=
  ⟨by decide,
   (csv_check_exact_suffix { name := "DATA.CSV", bytes := [] } UploadState.init).2.2.2.2.1
      (by decide),
   by decide,
   (csv_check_exact_suffix { name := ".csv", bytes := [] } UploadState.init).2.2.2.1
      (by decide)⟩

/-! ## Upload: a rejected selection beside a candidate -/

/-- C24: for every Upload state holding a candidate `f1` and every file `f2` whose name
does not end in ".csv", after `handleFile(f2)` `selectedFile` is still `f1` and
`isUploading` is unchanged; only `uploadStatus` changes, to the validation error, and no
call is made; a subsequent submit therefore uploads `f1`. -/
theorem rejected_selection_keeps_candidate (s : UploadState) (f1 f2 : File)
    (h1 : s.selectedFile = some f1) (h2 : endsWith f2.name ".csv" = false) :
    (handleFile f2 s).1.selectedFile = some f1
      ∧ (handleFile f2 s).1.isUploading = s.isUploading
      ∧ (handleFile f2 s).1
          = { s with
              uploadStatus := some { type := "error", message := "Only CSV files are allowed" } }
      ∧ (handleFile f2 s).2 = []
      ∧ (handleUploadStart (handleFile f2 s).1).2 = [Call.uploadCSV f1]
      ∧ (s.isUploading = false → (clickUpload (handleFile f2 s).1).2 = [Call.uploadCSV f1])
      ∧ ∀ (hasCallback : Bool) (outcome : Settled UploadResult),
          (handleUpload hasCallback outcome (handleFile f2 s).1).2.head?
            = some (Call.uploadCSV f1) := by
  have hf : handleFile f2 s
      = ({ s with
              uploadStatus := some { type := "error", message := "Only CSV files are allowed" } }, []) := by
    simp [handleFile, h2]
  rw [hf]
  refine ⟨h1, rfl, rfl, rfl, ?_, ?_, ?_⟩
  · simp [handleUploadStart, h1]
  · intro hup
    simp [clickUpload, handleUploadStart, h1, hup]
  · intro hasCallback outcome
    cases outcome <;> simp [handleUpload, handleUploadStart, h1]

/-- C24 at a concrete input: `notes.txt` is dropped while `data.csv` is the candidate. -/
theorem rejected_selection_keeps_candidate_witness :
    ({ UploadState.init with selectedFile := some { name := "data.csv", bytes := [1, 2] } }
        : UploadState).selectedFile = some { name := "data.csv", bytes := [1, 2] }
      ∧ endsWith "notes.txt" ".csv" = false
      ∧ (handleUploadStart
          (handleFile { name := "notes.txt", bytes := [] }
            { UploadState.init with
              selectedFile := some { name := "data.csv", bytes := [1, 2] } }).1).2
        = [Call.uploadCSV { name := "data.csv", bytes := [1, 2] }] :=
  ⟨rfl, by decide,
   (rejected_selection_keeps_candidate
      { UploadState.init with selectedFile := some { name := "data.csv", bytes := [1, 2] } }
      { name := "data.csv", bytes := [1, 2] } { name := "notes.txt", bytes := [] }
      rfl (by decide)).2.2.2.2.1⟩

/-! ## Session: requests after logout -/

/-- C25: for every storage state and every request config that has no `Authorization`
header, running `logout` and then the request interceptor returns the config as it was,
so with no `Authorization` header; the interceptor reads `authToken` from the storage it
is run on, so the same config sent before the logout, with a non-empty token stored, did
carry `Token <token>`. -/
theorem no_credential_after_logout (storage : Storage) (s : AuthState) (config : RequestConfig)
    (h : getItem config.headers "Authorization" = none) :
    requestInterceptor (logout storage s).1 config = config
      ∧ requestInterceptor (apiLogout storage) config = config
      ∧ getItem (requestInterceptor (logout storage s).1 config).headers "Authorization" = none
      ∧ ∀ token : String, getItem storage "authToken" = some token → token ≠ "" →
          getItem (requestInterceptor storage config).headers "Authorization"
            = some ("Token " ++ token) := by
  have hc : requestInterceptor (apiLogout storage) config = config := by
    simp [requestInterceptor, apiLogout_authToken]
  refine ⟨hc, hc, ?_, fun token hget hne => ?_⟩
  · show getItem (requestInterceptor (apiLogout storage) config).headers "Authorization" = none
    rw [hc]
    exact h
  · simp [requestInterceptor, hget, (truthy_some token).2 hne, getItem_setItem_self]

/-- C25 at a concrete input: `alice` logs out and the dashboard request goes out bare. -/
theorem no_credential_after_logout_witness :
    getItem dashboardRequestExample.headers "Authorization" = none
      ∧ requestInterceptor (logout signedInExample.storage signedInExample.auth).1
          dashboardRequestExample = dashboardRequestExample
      ∧ getItem (requestInterceptor signedInExample.storage dashboardRequestExample).headers
          "Authorization" = some "Token tok1" :=
  ⟨by decide,
   (no_credential_after_logout signedInExample.storage signedInExample.auth
      dashboardRequestExample (by decide)).1,
   by decide⟩

end Foss
